import Mathlib

/-!
Shallow embedding of the recording-processing pipeline
(`processing/tasks.py`, `processing/models.py`, `analysis/models.py`,
`recordings/models.py`) of the elyune backend.

The database rows touched by the pipeline tasks for a single recording are
collected in a `DB` structure; each Celery task body is transcribed as a pure
attempt function `DB -> AttemptOut`, with the external world (FFmpeg, the
speech-to-text service, the generative-text service, the queue enqueue) passed
in as explicit outcome parameters.  Celery's `self.retry` semantics
(`max_retries` retries after the initial attempt, constant countdown) are
modelled by the driver `runTask`, and the Celery `chain` primitive (next task
runs only if the previous one returned) by `runChain`.

Timestamps are abstract `Nat` instants supplied per attempt; media bytes,
object-store payloads and raw API responses are out of the model (entities
hold only the references/fields the pipeline logic reads or writes).
-/

namespace Elyune

/-- Recording.STATUS_CHOICES (recordings/models.py). -/
inductive RecStatus
  | uploading | uploaded | processing | completed | failed
  deriving DecidableEq, Repr

/-- ProcessingJob.STATUS_CHOICES (processing/models.py). -/
inductive JobStatus
  | pending | running | completed | failed
  deriving DecidableEq, Repr

/-- ProcessingStep.STATUS_CHOICES (processing/models.py). -/
inductive StepStatus
  | pending | running | completed | failed
  deriving DecidableEq, Repr

/-- ProcessingStep.STEP_CHOICES (processing/models.py). -/
inductive StepName
  | video_conversion | audio_extraction | speech_to_text | ai_analysis
  deriving DecidableEq, Repr

/-- RecordingFile.FILE_TYPE_CHOICES (recordings/models.py). -/
inductive FileType
  | original_webm | converted_mp4 | audio_extract
  deriving DecidableEq, Repr

/-- AIAnalysis.ANALYSIS_TYPE_CHOICES (analysis/models.py). -/
inductive AnalysisType
  | summary | action_items | key_points | sentiment
  deriving DecidableEq, Repr

/-- ProcessingJob row (fields the pipeline reads or writes). -/
structure Job where
  status : JobStatus
  progress_percentage : Nat
  started_at : Option Nat
  completed_at : Option Nat
  deriving DecidableEq, Repr

/-- ProcessingStep row (fields the pipeline reads or writes); the job foreign
key is implicit since the model tracks a single recording with its single
one-to-one job. -/
structure Step where
  step_name : StepName
  status : StepStatus
  started_at : Option Nat
  completed_at : Option Nat
  duration_seconds : Option Nat
  output_file : String
  error_message : String
  metadata_num_speakers : Option Nat
  deriving DecidableEq, Repr

/-- Word-level timing entry of an utterance (speech-to-text response). -/
structure Word where
  word : String
  start : Nat
  stop : Nat
  confidence : Nat
  deriving DecidableEq, Repr

/-- One utterance of the speech-to-text response (`result.utterances`). -/
structure Utterance where
  start : Nat
  stop : Nat
  transcript : String
  confidence : Nat
  speaker : Nat
  words : List Word
  deriving DecidableEq, Repr

/-- Successful speech-to-text adapter response, as read by `transcribe_audio`. -/
structure TranscribeResult where
  transcript : String
  confidence : Nat
  language : Option String
  duration : Nat
  utterances : List Utterance
  deriving DecidableEq, Repr

/-- Transcription row (analysis/models.py; raw-response/debug fields omitted). -/
structure Transcription where
  full_text : String
  confidence_score : Nat
  language_detected : String
  num_speakers : Nat
  audio_duration_seconds : Nat
  deriving DecidableEq, Repr

/-- TranscriptionSegment row (analysis/models.py). -/
structure Segment where
  start_time_seconds : Nat
  end_time_seconds : Nat
  text : String
  confidence_score : Nat
  speaker_id : Option Nat
  speaker_label : String
  words : List Word
  deriving DecidableEq, Repr

/-- AIAnalysis.result_data payload, per analysis type (spec section 6). -/
inductive ResultData
  | summaryData (summary : String) (word_count : Nat)
  | actionItemsData (items : List String) (total_count : Nat)
  | keyPointsData (points : List String) (total_count : Nat)
  | sentimentData (analysis : String)
  deriving DecidableEq, Repr

/-- AIAnalysis row (analysis/models.py; raw-response fields omitted). -/
structure Analysis where
  analysis_type : AnalysisType
  result_data : ResultData
  result_text : String
  tokens_used : Nat
  deriving DecidableEq, Repr

/-- Django settings read by the tasks; an empty string models an unset key
(Python falsiness of `settings.DEEPGRAM_API_KEY` / `settings.GEMINI_API_KEY`). -/
structure Settings where
  deepgramApiKey : String
  geminiApiKey : String
  deriving DecidableEq, Repr

/-- Database state for one recording, as touched by the pipeline tasks,
plus the queue-dispatch counter and the local scratch files on disk. -/
structure DB where
  rec_status : RecStatus
  rec_error_message : String
  rec_completed_at : Option Nat
  jobs : List Job
  steps : List Step
  files : List FileType
  transcriptions : List Transcription
  segments : List Segment
  analyses : List Analysis
  dispatches : Nat
  localFiles : List String
  deriving DecidableEq, Repr

/-- Outcome of one external call: success payload or raised error text. -/
inductive ExtOutcome (α : Type)
  | ok (a : α)
  | err (msg : String)
  deriving DecidableEq, Repr

/-- Result of one attempt (one Celery task execution): the database after the
attempt, whether the task body returned (`ok`) or raised into `self.retry`,
whether the external adapter was invoked during the attempt, and the error
text of the raised exception if any. -/
structure AttemptOut where
  db : DB
  ok : Bool
  adapterCalled : Bool
  errMsg : Option String
  deriving Repr

/-- Scratch path `/tmp/{recording_id}_original.webm`. -/
def webmScratch : String := "/tmp/rec_original.webm"

/-- Scratch path `/tmp/{recording_id}_converted.mp4`. -/
def mp4Scratch : String := "/tmp/rec_converted.mp4"

/-- Scratch path `/tmp/{recording_id}_audio.wav`. -/
def audioScratch : String := "/tmp/rec_audio.wav"

/-- The `except` block of the media/transcribe tasks when `step` is not None:
mark the step failed with the error text (`step.status = failed;
step.error_message = str(exc); step.save()`), then raise to retry. -/
def markStepFailed (db : DB) (n : StepName) (msg : String) : DB :=
  { db with steps := db.steps.map fun s =>
      if s.step_name = n then
        { s with status := StepStatus.failed, error_message := msg }
      else s }

/-- Failure exit through a task except block that updates the step. -/
def failStep (db : DB) (n : StepName) (msg : String) (adapterCalled : Bool) :
    AttemptOut :=
  { db := markStepFailed db n msg, ok := false, adapterCalled := adapterCalled,
                                   errMsg := some msg }

/-- Failure exit through a task except block with `step = None`
(the exception was raised before or at `ProcessingStep.objects.create`). -/
def failNoStep (db : DB) (msg : String) : AttemptOut :=
  { db := db, ok := false, adapterCalled := false, errMsg := some msg }

/-- New ProcessingStep row with status running (the
`ProcessingStep.objects.create(..., status='running', started_at=now)` call). -/
def newRunningStep (n : StepName) (t0 : Nat) : Step :=
  { step_name := n, status := StepStatus.running, started_at := some t0,
                    completed_at := none, duration_seconds := none, output_file := "",
                    error_message := "", metadata_num_speakers := none }

/-- Success-path step update: status completed, completed_at, duration,
output_file / metadata as the particular task sets them. -/
def markStepCompleted (db : DB) (n : StepName) (t0 t1 : Nat)
    (outFile : String) (meta : Option Nat) : DB :=
  { db with steps := db.steps.map fun s =>
      if s.step_name = n then
        { s with status := StepStatus.completed, completed_at := some t1,
                 duration_seconds := some (t1 - t0), output_file := outFile,
                 metadata_num_speakers := meta }
      else s }

/-- The Django unique_together [job, step_name] constraint: creating a second
step with the same name raises IntegrityError. -/
def stepExists (db : DB) (n : StepName) : Prop :=
  ∃ s ∈ db.steps, s.step_name = n

instance (db : DB) (n : StepName) : Decidable (stepExists db n) := by
  unfold stepExists; infer_instance

/-- Task body of `convert_webm_to_mp4` (tasks.py lines 81-163), one attempt.
`ffmpeg` is the outcome of the subprocess call (err carries stderr on a
non-zero return code). -/
def convert_webm_to_mp4_attempt (ffmpeg : ExtOutcome Unit) (t0 t1 : Nat)
    (db : DB) : AttemptOut :=
  match db.jobs with
  | [] => failNoStep db "Recording has no processing_job."
  | _ :: _ =>
    if stepExists db StepName.video_conversion then
      failNoStep db "duplicate key value violates unique constraint (job, step_name)"
    else
      let db := { db with steps := db.steps ++ [newRunningStep StepName.video_conversion t0] }
      if FileType.original_webm ∈ db.files then
        let db := { db with localFiles := db.localFiles ++ [webmScratch] }
        match ffmpeg with
        | ExtOutcome.err stderr =>
          failStep db StepName.video_conversion ("FFmpeg failed: " ++ stderr) true
        | ExtOutcome.ok _ =>
          let db := { db with localFiles := db.localFiles ++ [mp4Scratch] }
          if FileType.converted_mp4 ∈ db.files then
            failStep db StepName.video_conversion
              "duplicate key value violates unique constraint (recording, file_type)" true
          else
            let db := { db with files := db.files ++ [FileType.converted_mp4] }
            let db := markStepCompleted db StepName.video_conversion t0 t1
              "recordings/rec/converted.mp4" none
            let db := { db with
              localFiles := (db.localFiles.erase webmScratch).erase mp4Scratch }
            { db := db, ok := true, adapterCalled := true, errMsg := none }
      else
        failStep db StepName.video_conversion
          "RecordingFile matching query does not exist." false

/-- Task body of `extract_audio_from_video` (tasks.py lines 166-247), one
attempt; reads the original WebM again and writes the WAV audio extract. -/
def extract_audio_from_video_attempt (ffmpeg : ExtOutcome Unit) (t0 t1 : Nat)
    (db : DB) : AttemptOut :=
  match db.jobs with
  | [] => failNoStep db "Recording has no processing_job."
  | _ :: _ =>
    if stepExists db StepName.audio_extraction then
      failNoStep db "duplicate key value violates unique constraint (job, step_name)"
    else
      let db := { db with steps := db.steps ++ [newRunningStep StepName.audio_extraction t0] }
      if FileType.original_webm ∈ db.files then
        let db := { db with localFiles := db.localFiles ++ [webmScratch] }
        match ffmpeg with
        | ExtOutcome.err stderr =>
          failStep db StepName.audio_extraction ("Audio extraction failed: " ++ stderr) true
        | ExtOutcome.ok _ =>
          let db := { db with localFiles := db.localFiles ++ [audioScratch] }
          if FileType.audio_extract ∈ db.files then
            failStep db StepName.audio_extraction
              "duplicate key value violates unique constraint (recording, file_type)" true
          else
            let db := { db with files := db.files ++ [FileType.audio_extract] }
            let db := markStepCompleted db StepName.audio_extraction t0 t1
              "recordings/rec/audio.wav" none
            let db := { db with
              localFiles := (db.localFiles.erase webmScratch).erase audioScratch }
            { db := db, ok := true, adapterCalled := true, errMsg := none }
      else
        failStep db StepName.audio_extraction
          "RecordingFile matching query does not exist." false

/-- Speaker-count computation of `transcribe_audio`:
`len(set(u.speaker for u in result.utterances)) if result.utterances else 0`. -/
def transcription_num_speakers (us : List Utterance) : Nat :=
  if us.isEmpty then 0 else ((us.map Utterance.speaker).dedup).length

/-- TranscriptionSegment built from one utterance by `transcribe_audio`
(tasks.py lines 325-343): `speaker_label = f"Speaker {utterance.speaker}"`,
word list kept when present (`if utterance.words else []`). -/
def segment_of_utterance (u : Utterance) : Segment :=
  { start_time_seconds := u.start, end_time_seconds := u.stop,
    text := u.transcript, confidence_score := u.confidence,
    speaker_id := some u.speaker,
    speaker_label := "Speaker " ++ toString u.speaker,
    words := if u.words.isEmpty then [] else u.words }

/-- Task body of `transcribe_audio` (tasks.py lines 250-364), one attempt.
`dg` is the outcome of the speech-to-text request. -/
def transcribe_audio_attempt (st : Settings) (dg : ExtOutcome TranscribeResult)
    (t0 t1 : Nat) (db : DB) : AttemptOut :=
  match db.jobs with
  | [] => failNoStep db "Recording has no processing_job."
  | _ :: _ =>
    if stepExists db StepName.speech_to_text then
      failNoStep db "duplicate key value violates unique constraint (job, step_name)"
    else
      let db := { db with steps := db.steps ++ [newRunningStep StepName.speech_to_text t0] }
      if st.deepgramApiKey = "" then
        failStep db StepName.speech_to_text "DEEPGRAM_API_KEY not configured" false
      else if FileType.audio_extract ∈ db.files then
        let db := { db with localFiles := db.localFiles ++ [audioScratch] }
        match dg with
        | ExtOutcome.err msg =>
          failStep db StepName.speech_to_text msg true
        | ExtOutcome.ok r =>
          if db.transcriptions.isEmpty then
            let tr : Transcription :=
              { full_text := r.transcript, confidence_score := r.confidence,
                language_detected := r.language.getD "en",
                num_speakers := transcription_num_speakers r.utterances,
                audio_duration_seconds := r.duration }
            let db := { db with
              transcriptions := db.transcriptions ++ [tr],
              segments := db.segments ++ r.utterances.map segment_of_utterance }
            let db := markStepCompleted db StepName.speech_to_text t0 t1 ""
              (some (transcription_num_speakers r.utterances))
            let db := { db with localFiles := db.localFiles.erase audioScratch }
            { db := db, ok := true, adapterCalled := true, errMsg := none }
          else
            failStep db StepName.speech_to_text
              "duplicate key value violates unique constraint (transcription recording)" true
      else
        failStep db StepName.speech_to_text
          "RecordingFile matching query does not exist." false

/-- Python `line.strip()`: drop leading and trailing whitespace.  Written
structurally over the character list so that it evaluates inside the kernel. -/
def pyStrip (s : String) : String :=
  String.mk (((s.data.dropWhile Char.isWhitespace).reverse.dropWhile
    Char.isWhitespace).reverse)

/-- Python `text.split(c)` for a single separator character. -/
def pySplitChar (c : Char) (s : String) : List String :=
  (s.data.splitOn c).map String.mk

/-- Python `line[0].isdigit()` guarded by non-emptiness (ASCII digits stand in
for the digit classes of the source). -/
def pyFirstIsDigit (s : String) : Bool :=
  match s.data with
  | [] => false
  | c :: _ => c.isDigit

/-- Python `line.startswith(p)`. -/
def pyStartsWith (s p : String) : Bool := p.data.isPrefixOf s.data

/-- Python `line` truthiness: the empty string is falsy. -/
def pyIsEmpty (s : String) : Bool := s.data.isEmpty

/-- Python whitespace split `text.split()` (empty pieces dropped). -/
def pySplitWhitespace (s : String) : List String :=
  ((s.data.splitOnP Char.isWhitespace).filter (fun w => !w.isEmpty)).map
    String.mk

/-- Result payload of `generate_summary` (tasks.py lines 503-530):
`{summary, word_count = len(summary_text.split())}`. -/
def generate_summary_data (text : String) : ResultData :=
  ResultData.summaryData text (pySplitWhitespace text).length

/-- Line loop of `extract_action_items` (tasks.py lines 556-560): strip each
line of the response, keep it when it is non-empty and its first character is
a digit or the line starts with a dash or an asterisk.  ASCII digits stand in
for the digit test of the source. -/
def extract_action_items_items (items_text : String) : List String :=
  (pySplitChar '\n' items_text).foldl
    (fun items line =>
      let line := pyStrip line
      if !pyIsEmpty line &&
         (pyFirstIsDigit line || pyStartsWith line "-"
           || pyStartsWith line "*") then
        items ++ [line]
      else items) []

/-- Result payload of `extract_action_items`: `{items, total_count = len(items)}`. -/
def extract_action_items_data (text : String) : ResultData :=
  ResultData.actionItemsData (extract_action_items_items text)
    (extract_action_items_items text).length

/-- Line loop of `extract_key_points` (tasks.py lines 598-602): keep stripped
lines starting with a dash, an asterisk or a bullet character. -/
def extract_key_points_points (key_points_text : String) : List String :=
  (pySplitChar '\n' key_points_text).foldl
    (fun points line =>
      let line := pyStrip line
      if !pyIsEmpty line &&
         (pyStartsWith line "-" || pyStartsWith line "*"
           || pyStartsWith line "•") then
        points ++ [line]
      else points) []

/-- Result payload of `extract_key_points`: `{points, total_count = len(points)}`. -/
def extract_key_points_data (text : String) : ResultData :=
  ResultData.keyPointsData (extract_key_points_points text)
    (extract_key_points_points text).length

/-- Result payload of `analyze_sentiment` (tasks.py lines 636-645). -/
def analyze_sentiment_data (text : String) : ResultData :=
  ResultData.sentimentData text

/-- Successful generative-text response: text plus token usage. -/
structure GeminiOut where
  text : String
  tokens : Nat
  deriving DecidableEq, Repr

/-- Outcomes of the four generative-text calls issued by
`analyze_transcription`, in source order. -/
structure AnalyzeEnv where
  summaryOut : ExtOutcome GeminiOut
  actionItemsOut : ExtOutcome GeminiOut
  keyPointsOut : ExtOutcome GeminiOut
  sentimentOut : ExtOutcome GeminiOut
  deriving DecidableEq, Repr

/-- AIAnalysis row written by `analyze_transcription`. -/
def mkAnalysis (t : AnalysisType) (d : ResultData) (txt : String) (tok : Nat) :
    Analysis :=
  { analysis_type := t, result_data := d, result_text := txt, tokens_used := tok }

/-- The Django unique_together [recording, analysis_type] constraint. -/
def analysisExists (db : DB) (t : AnalysisType) : Prop :=
  ∃ a ∈ db.analyses, a.analysis_type = t

instance (db : DB) (t : AnalysisType) : Decidable (analysisExists db t) := by
  unfold analysisExists; infer_instance

/-- The except block of `analyze_transcription` (tasks.py lines 474-486): mark
the step failed when it was created, then always mark the Recording failed
with the error text, before raising into retry. -/
def analyzeFail (db : DB) (msg : String) (stepCreated adapterCalled : Bool) :
    AttemptOut :=
  let db1 := if stepCreated then markStepFailed db StepName.ai_analysis msg else db
  let db2 := { db1 with rec_status := RecStatus.failed, rec_error_message := msg }
  { db := db2, ok := false, adapterCalled := adapterCalled, errMsg := some msg }

/-- Task body of `analyze_transcription` (tasks.py lines 367-486), one attempt.
The four generative-text calls run in source order; the first failure raises
into the except block. -/
def analyze_transcription_attempt (st : Settings) (env : AnalyzeEnv)
    (t0 t1 : Nat) (db : DB) : AttemptOut :=
  match db.jobs with
  | [] => analyzeFail db "Recording has no processing_job." false false
  | _ :: _ =>
    if db.transcriptions.isEmpty then
      analyzeFail db "Recording has no transcription." false false
    else if stepExists db StepName.ai_analysis then
      analyzeFail db "duplicate key value violates unique constraint (job, step_name)" false false
    else
      let db := { db with steps := db.steps ++ [newRunningStep StepName.ai_analysis t0] }
      if st.geminiApiKey = "" then
        analyzeFail db "GEMINI_API_KEY not configured" true false
      else
        match env.summaryOut with
        | ExtOutcome.err msg => analyzeFail db msg true true
        | ExtOutcome.ok g1 =>
          if analysisExists db AnalysisType.summary then
            analyzeFail db "duplicate key value violates unique constraint (recording, analysis_type)" true true
          else
            let db := { db with analyses := db.analyses ++
              [mkAnalysis AnalysisType.summary (generate_summary_data g1.text) g1.text g1.tokens] }
            match env.actionItemsOut with
            | ExtOutcome.err msg => analyzeFail db msg true true
            | ExtOutcome.ok g2 =>
              if analysisExists db AnalysisType.action_items then
                analyzeFail db "duplicate key value violates unique constraint (recording, analysis_type)" true true
              else
                let db := { db with analyses := db.analyses ++
                  [mkAnalysis AnalysisType.action_items (extract_action_items_data g2.text) g2.text g2.tokens] }
                match env.keyPointsOut with
                | ExtOutcome.err msg => analyzeFail db msg true true
                | ExtOutcome.ok g3 =>
                  if analysisExists db AnalysisType.key_points then
                    analyzeFail db "duplicate key value violates unique constraint (recording, analysis_type)" true true
                  else
                    let db := { db with analyses := db.analyses ++
                      [mkAnalysis AnalysisType.key_points (extract_key_points_data g3.text) g3.text g3.tokens] }
                    match env.sentimentOut with
                    | ExtOutcome.err msg => analyzeFail db msg true true
                    | ExtOutcome.ok g4 =>
                      if analysisExists db AnalysisType.sentiment then
                        analyzeFail db "duplicate key value violates unique constraint (recording, analysis_type)" true true
                      else
                        let db := { db with analyses := db.analyses ++
                          [mkAnalysis AnalysisType.sentiment (analyze_sentiment_data g4.text) g4.text g4.tokens] }
                        let db := markStepCompleted db StepName.ai_analysis t0 t1 "" none
                        let db := { db with rec_status := RecStatus.completed,
                                            rec_completed_at := some t1 }
                        let db := { db with jobs := db.jobs.map fun j =>
                          { j with status := JobStatus.completed,
                                   completed_at := some t1,
                                   progress_percentage := 100 } }
                        { db := db, ok := true, adapterCalled := true, errMsg := none }

/-- Task body of `process_recording_pipeline` (tasks.py lines 43-78), one
attempt: set Recording.status to processing and save, create the
one-to-one ProcessingJob (status running, started_at now), then enqueue the
four-stage chain (`workflow.apply_async()`, one dispatch); `enqueueOk`
models whether that enqueue call raises. -/
def process_recording_pipeline_attempt (enqueueOk : Bool) (t0 : Nat)
    (db : DB) : AttemptOut :=
  let db1 := { db with rec_status := RecStatus.processing }
  match db1.jobs with
  | [] =>
    let job : Job := { status := JobStatus.running, progress_percentage := 0,
                       started_at := some t0, completed_at := none }
    let db2 := { db1 with jobs := [job] }
    if enqueueOk then
      { db := { db2 with dispatches := db2.dispatches + 1 },
        ok := true, adapterCalled := false, errMsg := none }
    else
      { db := db2, ok := false, adapterCalled := false,
        errMsg := some "failed to enqueue workflow" }
  | _ :: _ =>
    { db := db1, ok := false, adapterCalled := false,
      errMsg := some "duplicate key value violates unique constraint (processing_job recording)" }

/-- Aggregate outcome of running one task through the Celery retry loop. -/
structure RunOut where
  db : DB
  ok : Bool
  attempts : Nat
  adapterCalls : Nat
  delays : List Nat
  deriving Repr

/-- Celery retry loop, counting down the remaining permitted attempts:
attempt `i` runs the task body; on return the run ends successfully; on a
raise, `self.retry` re-schedules the task after `delay` seconds while
`request.retries < max_retries`, and otherwise the task fails terminally. -/
def runTaskAux (attempt : Nat → DB → AttemptOut) (delay : Nat) :
    Nat → Nat → DB → Nat → List Nat → RunOut
  | 0, i, db, calls, delays =>
    { db := db, ok := false, attempts := i, adapterCalls := calls, delays := delays }
  | remaining + 1, i, db, calls, delays =>
    let a := attempt i db
    let calls1 := calls + (if a.adapterCalled then 1 else 0)
    if a.ok then
      { db := a.db, ok := true, attempts := i + 1, adapterCalls := calls1,
        delays := delays }
    else if remaining = 0 then
      { db := a.db, ok := false, attempts := i + 1, adapterCalls := calls1,
        delays := delays }
    else
      runTaskAux attempt delay remaining (i + 1) a.db calls1 (delays ++ [delay])

/-- Run one task with `max_retries` retries after the initial attempt
(Celery `@shared_task(bind=True, max_retries=n)` with constant countdown). -/
def runTask (attempt : Nat → DB → AttemptOut) (delay maxRetries : Nat)
    (db : DB) : RunOut :=
  runTaskAux attempt delay (maxRetries + 1) 0 db 0 []

/-- Per-attempt external-world schedule of a whole pipeline run. -/
structure PipelineEnv where
  enqueueOk : Nat → Bool
  ffmpegConvert : Nat → ExtOutcome Unit
  ffmpegExtract : Nat → ExtOutcome Unit
  deepgram : Nat → ExtOutcome TranscribeResult
  gemini : Nat → AnalyzeEnv
  timesC : Nat → Nat × Nat
  timesE : Nat → Nat × Nat
  timesT : Nat → Nat × Nat
  timesA : Nat → Nat × Nat

/-- Final state and overall success of a chain run. -/
structure ChainOut where
  db : DB
  ok : Bool
  deriving Repr

/-- The Celery `chain` dispatched by the orchestrator (tasks.py lines 65-72):
each stage runs through its own retry loop, and the next stage is dispatched
only if the previous one succeeded. -/
def runChain (st : Settings) (env : PipelineEnv) (db : DB) : ChainOut :=
  let r1 := runTask
    (fun i db => convert_webm_to_mp4_attempt (env.ffmpegConvert i)
      (env.timesC i).1 (env.timesC i).2 db) 120 2 db
  if r1.ok then
    let r2 := runTask
      (fun i db => extract_audio_from_video_attempt (env.ffmpegExtract i)
        (env.timesE i).1 (env.timesE i).2 db) 120 2 r1.db
    if r2.ok then
      let r3 := runTask
        (fun i db => transcribe_audio_attempt st (env.deepgram i)
          (env.timesT i).1 (env.timesT i).2 db) 180 3 r2.db
      if r3.ok then
        let r4 := runTask
          (fun i db => analyze_transcription_attempt st (env.gemini i)
            (env.timesA i).1 (env.timesA i).2 db) 180 3 r3.db
        { db := r4.db, ok := r4.ok }
      else { db := r3.db, ok := false }
    else { db := r2.db, ok := false }
  else { db := r1.db, ok := false }

/-- Whole pipeline: the orchestrator through its own retry loop (countdown 60,
max_retries 3), then, if it enqueued the workflow, the four-stage chain. -/
def runFullPipeline (st : Settings) (env : PipelineEnv) (db : DB) : ChainOut :=
  let r0 := runTask
    (fun i db => process_recording_pipeline_attempt (env.enqueueOk i)
      (env.timesC i).1 db) 60 3 db
  if r0.ok then runChain st env r0.db
  else { db := r0.db, ok := false }

/-- Retry delay (the `countdown` argument of `self.retry`) of each stage task. -/
def stage_retry_delay : StepName → Nat
  | StepName.video_conversion => 120
  | StepName.audio_extraction => 120
  | StepName.speech_to_text => 180
  | StepName.ai_analysis => 180

/-- The `max_retries` decorator argument of each stage task. -/
def stage_max_retries : StepName → Nat
  | StepName.video_conversion => 2
  | StepName.audio_extraction => 2
  | StepName.speech_to_text => 3
  | StepName.ai_analysis => 3

/-- One attempt of the stage executor selected by name. -/
def stage_attempt (n : StepName) (st : Settings) (fc fe : ExtOutcome Unit)
    (dg : ExtOutcome TranscribeResult) (ge : AnalyzeEnv) (t0 t1 : Nat)
    (db : DB) : AttemptOut :=
  match n with
  | StepName.video_conversion => convert_webm_to_mp4_attempt fc t0 t1 db
  | StepName.audio_extraction => extract_audio_from_video_attempt fe t0 t1 db
  | StepName.speech_to_text => transcribe_audio_attempt st dg t0 t1 db
  | StepName.ai_analysis => analyze_transcription_attempt st ge t0 t1 db

/-- Dispatch of one stage onto the work queue: the stage task runs through its
own Celery retry loop with its stage-specific countdown and retry bound. -/
def run_stage (n : StepName) (st : Settings) (fc fe : ExtOutcome Unit)
    (dg : ExtOutcome TranscribeResult) (ge : AnalyzeEnv)
    (times : Nat → Nat × Nat) (db : DB) : RunOut :=
  runTask (fun i d => stage_attempt n st fc fe dg ge (times i).1 (times i).2 d)
    (stage_retry_delay n) (stage_max_retries n) db

/-! Concrete sample states and environments, used by witnesses and
counterexamples. -/

/-- Fresh uploaded recording: no job, no steps, only the original upload. -/
def dbInit : DB :=
  { rec_status := RecStatus.uploaded, rec_error_message := "",
    rec_completed_at := none, jobs := [], steps := [],
    files := [FileType.original_webm], transcriptions := [], segments := [],
    analyses := [], dispatches := 0, localFiles := [] }

/-- State right after the orchestrator ran on `dbInit` at time 10. -/
def dbWithJob : DB :=
  { dbInit with rec_status := RecStatus.processing,
                jobs := [{ status := JobStatus.running, progress_percentage := 0,
                           started_at := some 10, completed_at := none }],
                dispatches := 1 }

/-- Settings with both API keys configured. -/
def settingsSample : Settings := { deepgramApiKey := "dg", geminiApiKey := "gm" }

/-- Settings with neither API key configured. -/
def settingsNoKeys : Settings := { deepgramApiKey := "", geminiApiKey := "" }

/-- A two-utterance diarized transcript with speakers 0 and 1. -/
def trSample : TranscribeResult :=
  { transcript := "hello world", confidence := 9, language := some "en",
    duration := 42,
    utterances :=
      [{ start := 0, stop := 3, transcript := "hello", confidence := 9,
         speaker := 0, words := [] },
       { start := 3, stop := 6, transcript := "world", confidence := 9,
         speaker := 1, words := [] }] }

/-- All four generative-text calls succeed. -/
def geminiSample : AnalyzeEnv :=
  { summaryOut := ExtOutcome.ok { text := "a short summary", tokens := 5 },
    actionItemsOut := ExtOutcome.ok
      { text := "intro\n1. do x\n- do y\n* do z\nclosing", tokens := 5 },
    keyPointsOut := ExtOutcome.ok { text := "- p1\n- p2", tokens := 5 },
    sentimentOut := ExtOutcome.ok { text := "positive", tokens := 5 } }

/-- Attempt-indexed timestamps. -/
def timesSample : Nat → Nat × Nat := fun i => (10 + 2 * i, 11 + 2 * i)

/-- Fully successful external world. -/
def envOkSample : PipelineEnv :=
  { enqueueOk := fun _ => true,
    ffmpegConvert := fun _ => ExtOutcome.ok (),
    ffmpegExtract := fun _ => ExtOutcome.ok (),
    deepgram := fun _ => ExtOutcome.ok trSample,
    gemini := fun _ => geminiSample,
    timesC := fun i => (10 + 2 * i, 11 + 2 * i),
    timesE := fun i => (20 + 2 * i, 21 + 2 * i),
    timesT := fun i => (30 + 2 * i, 31 + 2 * i),
    timesA := fun i => (40 + 2 * i, 41 + 2 * i) }

/-- External world in which the transcode subprocess always fails. -/
def envFailConv : PipelineEnv :=
  { envOkSample with ffmpegConvert := fun _ => ExtOutcome.err "boom" }

/-- Completed transcode step as produced by a successful first run. -/
def stepCompletedConv : Step :=
  { step_name := StepName.video_conversion, status := StepStatus.completed,
    started_at := some 10, completed_at := some 11, duration_seconds := some 1,
    output_file := "recordings/rec/converted.mp4", error_message := "",
    metadata_num_speakers := none }

/-- State of a recording whose transcode stage completed. -/
def dbAfterConv : DB :=
  { dbWithJob with steps := [stepCompletedConv],
                   files := [FileType.original_webm, FileType.converted_mp4] }

/-- State of a recording whose transcode completed and whose audio extraction
then failed: the resume scenario of the specification. -/
def dbResume : DB :=
  { dbAfterConv with steps :=
      [stepCompletedConv,
       { step_name := StepName.audio_extraction, status := StepStatus.failed,
         started_at := some 20, completed_at := none, duration_seconds := none,
         output_file := "", error_message := "Audio extraction failed: disk full",
         metadata_num_speakers := none }] }

/-- State ready for the transcribe stage (both media stages done). -/
def dbReadyT : DB :=
  { dbWithJob with
    files := [FileType.original_webm, FileType.converted_mp4,
              FileType.audio_extract] }

/-- A step row as it looks after being created running at `t0` and then
marked failed with `msg` by the except block. -/
def failedStepOf (n : StepName) (t0 : Nat) (msg : String) : Step :=
  { newRunningStep n t0 with status := StepStatus.failed,
                             error_message := msg }

/-! Generic lemmas about the retry loop. -/

theorem runTaskAux_all_fail (attempt : Nat → DB → AttemptOut) (delay : Nat)
    (P : DB → Prop)
    (hP : ∀ i db, P db → (attempt i db).ok = false ∧ P (attempt i db).db) :
    ∀ remaining i db calls delays, P db →
      (runTaskAux attempt delay remaining i db calls delays).ok = false ∧
      P ((runTaskAux attempt delay remaining i db calls delays).db) ∧
      (runTaskAux attempt delay remaining i db calls delays).attempts
        = i + remaining ∧
      (runTaskAux attempt delay remaining i db calls delays).delays
        = delays ++ List.replicate (remaining - 1) delay := by
  intro remaining
  induction remaining with
  | zero =>
    intro i db calls delays h
    simp [runTaskAux]
    exact h
  | succ r ih =>
    intro i db calls delays h
    obtain ⟨hok, hPd⟩ := hP i db h
    by_cases hr : r = 0
    · subst hr
      simp [runTaskAux, hok]
      exact hPd
    · have hrec := ih (i + 1) (attempt i db).db
        (calls + if (attempt i db).adapterCalled then 1 else 0)
        (delays ++ [delay]) hPd
      simp only [runTaskAux, hok, hr, if_false, Bool.false_eq_true, if_neg,
        ite_false] at hrec ⊢
      refine ⟨hrec.1, hrec.2.1, by omega, ?_⟩
      have hr1 : r - 1 + 1 = r := by omega
      rw [hrec.2.2.2, List.append_assoc, List.singleton_append,
        ← List.replicate_succ, hr1]
      simp

theorem runTaskAux_no_adapter (attempt : Nat → DB → AttemptOut) (delay : Nat)
    (P : DB → Prop)
    (hP : ∀ i db, P db → (attempt i db).ok = false ∧
      (attempt i db).adapterCalled = false ∧ P (attempt i db).db) :
    ∀ remaining i db calls delays, P db →
      (runTaskAux attempt delay remaining i db calls delays).adapterCalls
        = calls := by
  intro remaining
  induction remaining with
  | zero =>
    intro i db calls delays h
    simp [runTaskAux]
  | succ r ih =>
    intro i db calls delays h
    obtain ⟨hok, had, hPd⟩ := hP i db h
    by_cases hr : r = 0
    · subst hr; simp [runTaskAux, hok, had]
    · have hrec := ih (i + 1) (attempt i db).db
        (calls + if (attempt i db).adapterCalled then 1 else 0)
        (delays ++ [delay]) hPd
      simp only [runTaskAux, hok, had, hr] at hrec ⊢
      simpa using hrec

theorem runTaskAux_attempts_delays (attempt : Nat → DB → AttemptOut)
    (delay : Nat) :
    ∀ remaining i db calls delays,
      (runTaskAux attempt delay remaining i db calls delays).attempts
        ≤ i + remaining ∧
      (∀ d ∈ (runTaskAux attempt delay remaining i db calls delays).delays,
        d ∈ delays ∨ d = delay) := by
  intro remaining
  induction remaining with
  | zero =>
    intro i db calls delays
    simp [runTaskAux]
    exact fun d hd => Or.inl hd
  | succ r ih =>
    intro i db calls delays
    by_cases hok : (attempt i db).ok
    · constructor
      · simp [runTaskAux, hok]
      · simp only [runTaskAux, hok, ite_true, if_pos]
        exact fun d hd => Or.inl hd
    · by_cases hr : r = 0
      · subst hr
        constructor
        · simp [runTaskAux, hok]
        · simp only [runTaskAux, hok, Bool.false_eq_true, ite_false, if_false,
            if_neg, ite_true, if_pos, if_true]
          exact fun d hd => Or.inl hd
      · have hrec := ih (i + 1) (attempt i db).db
          (calls + if (attempt i db).adapterCalled then 1 else 0)
          (delays ++ [delay])
        simp only [runTaskAux, hok, hr] at hrec ⊢
        simp only [Bool.false_eq_true, if_false, ite_false]
        refine ⟨by have := hrec.1; omega, ?_⟩
        intro d hd
        rcases hrec.2 d hd with hmem | hd'
        · rcases List.mem_append.mp hmem with h1 | h2
          · exact Or.inl h1
          · exact Or.inr (List.eq_of_mem_singleton h2)
        · exact Or.inr hd'

/-- A task whose first attempt returns ends after exactly one attempt. -/
theorem runTask_first_ok (attempt : Nat → DB → AttemptOut)
    (delay maxRetries : Nat) (db : DB) (h : (attempt 0 db).ok = true) :
    runTask attempt delay maxRetries db =
      { db := (attempt 0 db).db, ok := true, attempts := 1,
        adapterCalls := if (attempt 0 db).adapterCalled then 1 else 0,
        delays := [] } := by
  unfold runTask
  simp [runTaskAux, h]

/-- A task whose first attempt raises continues into the retry loop with one
scheduled delay. -/
theorem runTask_first_fail (attempt : Nat → DB → AttemptOut)
    (delay maxRetries : Nat) (db : DB) (h : (attempt 0 db).ok = false)
    (hm : maxRetries ≠ 0) :
    runTask attempt delay maxRetries db =
      runTaskAux attempt delay maxRetries 1 (attempt 0 db).db
        (if (attempt 0 db).adapterCalled then 1 else 0) [delay] := by
  unfold runTask
  simp [runTaskAux, h, hm]

/-! Attempt-level facts about each stage executor. -/

/-- When a step row for the stage already exists, the unconditional
`ProcessingStep.objects.create` of any stage attempt hits the unique
constraint (or the job lookup fails first); either way the attempt raises
without invoking the adapter and without touching any row collection. -/
theorem stage_attempt_existing_step (n : StepName) (st : Settings)
    (fc fe : ExtOutcome Unit) (dg : ExtOutcome TranscribeResult)
    (ge : AnalyzeEnv) (t0 t1 : Nat) (db : DB) (h : stepExists db n) :
    (stage_attempt n st fc fe dg ge t0 t1 db).ok = false ∧
    (stage_attempt n st fc fe dg ge t0 t1 db).adapterCalled = false ∧
    (stage_attempt n st fc fe dg ge t0 t1 db).db.steps = db.steps ∧
    (stage_attempt n st fc fe dg ge t0 t1 db).db.transcriptions
      = db.transcriptions ∧
    (stage_attempt n st fc fe dg ge t0 t1 db).db.segments = db.segments ∧
    (stage_attempt n st fc fe dg ge t0 t1 db).db.analyses = db.analyses := by
  cases n with
  | video_conversion =>
    unfold stage_attempt convert_webm_to_mp4_attempt
    rcases hj : db.jobs with _ | ⟨a, l⟩ <;> simp [hj, failNoStep, h]
  | audio_extraction =>
    unfold stage_attempt extract_audio_from_video_attempt
    rcases hj : db.jobs with _ | ⟨a, l⟩ <;> simp [hj, failNoStep, h]
  | speech_to_text =>
    unfold stage_attempt transcribe_audio_attempt
    rcases hj : db.jobs with _ | ⟨a, l⟩ <;> simp [hj, failNoStep, h]
  | ai_analysis =>
    unfold stage_attempt analyze_transcription_attempt
    rcases hj : db.jobs with _ | ⟨a, l⟩ <;>
      by_cases ht : db.transcriptions.isEmpty = true <;>
        simp [hj, ht, analyzeFail, h]

/-- The three non-analyze stage attempts never touch the Recording row. -/
theorem media_attempts_rec_unchanged (fc fe : ExtOutcome Unit) (st : Settings)
    (dg : ExtOutcome TranscribeResult) (t0 t1 : Nat) (db : DB) :
    (convert_webm_to_mp4_attempt fc t0 t1 db).db.rec_status = db.rec_status ∧
    (convert_webm_to_mp4_attempt fc t0 t1 db).db.rec_error_message
      = db.rec_error_message ∧
    (extract_audio_from_video_attempt fe t0 t1 db).db.rec_status
      = db.rec_status ∧
    (extract_audio_from_video_attempt fe t0 t1 db).db.rec_error_message
      = db.rec_error_message ∧
    (transcribe_audio_attempt st dg t0 t1 db).db.rec_status = db.rec_status ∧
    (transcribe_audio_attempt st dg t0 t1 db).db.rec_error_message
      = db.rec_error_message := by
  refine ⟨?_, ?_, ?_, ?_, ?_, ?_⟩ <;>
  · simp only [convert_webm_to_mp4_attempt, extract_audio_from_video_attempt,
      transcribe_audio_attempt]
    repeat' split
    all_goals simp [failStep, failNoStep, markStepFailed, markStepCompleted]

/-- The three non-analyze stage attempts never touch the job rows either. -/
theorem media_attempts_jobs_unchanged (fc fe : ExtOutcome Unit) (st : Settings)
    (dg : ExtOutcome TranscribeResult) (t0 t1 : Nat) (db : DB) :
    (convert_webm_to_mp4_attempt fc t0 t1 db).db.jobs = db.jobs ∧
    (extract_audio_from_video_attempt fe t0 t1 db).db.jobs = db.jobs ∧
    (transcribe_audio_attempt st dg t0 t1 db).db.jobs = db.jobs := by
  refine ⟨?_, ?_, ?_⟩ <;>
  · simp only [convert_webm_to_mp4_attempt, extract_audio_from_video_attempt,
      transcribe_audio_attempt]
    repeat' split
    all_goals simp [failStep, failNoStep, markStepFailed, markStepCompleted]

/-- Every raising path of the analyze attempt runs through its except block,
which marks the Recording failed and records the error text on it. -/
theorem analyze_attempt_fail_marks_recording (st : Settings) (ge : AnalyzeEnv)
    (t0 t1 : Nat) (db : DB) :
    (analyze_transcription_attempt st ge t0 t1 db).ok = true ∨
    ((analyze_transcription_attempt st ge t0 t1 db).db.rec_status
        = RecStatus.failed ∧
      some (analyze_transcription_attempt st ge t0 t1 db).db.rec_error_message
        = (analyze_transcription_attempt st ge t0 t1 db).errMsg) := by
  unfold analyze_transcription_attempt
  repeat' split
  all_goals simp only [analyzeFail, markStepFailed, markStepCompleted]
  all_goals repeat' split
  all_goals simp [analyzeFail, markStepFailed, markStepCompleted]

/-! Claim theorems. -/

/-- The accumulating line loop of `extract_action_items` collects exactly the
stripped lines accepted by its guard. -/
theorem extract_action_items_items_eq (text : String) :
    extract_action_items_items text
      = ((pySplitChar '\n' text).map pyStrip).filter
          (fun line => !pyIsEmpty line &&
            (pyFirstIsDigit line || pyStartsWith line "-"
              || pyStartsWith line "*")) := by
  unfold extract_action_items_items
  generalize (pySplitChar '\n' text) = l
  have h : ∀ acc : List String,
      l.foldl (fun items line =>
        let line := pyStrip line
        if !pyIsEmpty line &&
           (pyFirstIsDigit line || pyStartsWith line "-"
             || pyStartsWith line "*") then
          items ++ [line]
        else items) acc
      = acc ++ (l.map pyStrip).filter
          (fun line => !pyIsEmpty line &&
            (pyFirstIsDigit line || pyStartsWith line "-"
              || pyStartsWith line "*")) := by
    induction l with
    | nil => intro acc; simp
    | cons a l ih =>
      intro acc
      simp only [List.foldl_cons, List.map_cons, List.filter_cons]
      by_cases hp : (!pyIsEmpty (pyStrip a) &&
          (pyFirstIsDigit (pyStrip a) || pyStartsWith (pyStrip a) "-"
            || pyStartsWith (pyStrip a) "*")) = true
      · rw [if_pos hp, ih, if_pos hp]
        simp
      · rw [if_neg hp, ih, if_neg hp]
  simpa using h []

/-- C9: for every adapter response text, the action-items parser returns
exactly the stripped non-empty lines whose first character is a digit or
which start with a dash or an asterisk, with total_count the length of that
list; and the scenario text with three numbered lines and two unrelated lines
yields exactly three items. -/
theorem C9_action_items_parsing :
    (∀ text, extract_action_items_data text =
      ResultData.actionItemsData
        (((pySplitChar '\n' text).map pyStrip).filter
          (fun line => !pyIsEmpty line &&
            (pyFirstIsDigit line || pyStartsWith line "-"
              || pyStartsWith line "*")))
        (((pySplitChar '\n' text).map pyStrip).filter
          (fun line => !pyIsEmpty line &&
            (pyFirstIsDigit line || pyStartsWith line "-"
              || pyStartsWith line "*"))).length) ∧
    extract_action_items_items
        "intro text\n1. first\n2. second\n3. third\nclosing remark"
      = ["1. first", "2. second", "3. third"] ∧
    (extract_action_items_items
        "intro text\n1. first\n2. second\n3. third\nclosing remark").length
      = 3 := by
  refine ⟨?_, by decide, by decide⟩
  intro text
  unfold extract_action_items_data
  rw [extract_action_items_items_eq]

/-- C10: every raising attempt of the analyze stage - including a first
attempt that will still be retried - marks the Recording failed and stores
the error text on it, while attempts of the other three stages never touch
the Recording row. -/
theorem C10_analyze_marks_recording_failed (st : Settings) (ge : AnalyzeEnv)
    (fc fe : ExtOutcome Unit) (dg : ExtOutcome TranscribeResult)
    (t0 t1 : Nat) (db : DB)
    (h : (analyze_transcription_attempt st ge t0 t1 db).ok = false) :
    (analyze_transcription_attempt st ge t0 t1 db).db.rec_status
      = RecStatus.failed ∧
    some (analyze_transcription_attempt st ge t0 t1 db).db.rec_error_message
      = (analyze_transcription_attempt st ge t0 t1 db).errMsg ∧
    (convert_webm_to_mp4_attempt fc t0 t1 db).db.rec_status = db.rec_status ∧
    (convert_webm_to_mp4_attempt fc t0 t1 db).db.rec_error_message
      = db.rec_error_message ∧
    (extract_audio_from_video_attempt fe t0 t1 db).db.rec_status
      = db.rec_status ∧
    (extract_audio_from_video_attempt fe t0 t1 db).db.rec_error_message
      = db.rec_error_message ∧
    (transcribe_audio_attempt st dg t0 t1 db).db.rec_status = db.rec_status ∧
    (transcribe_audio_attempt st dg t0 t1 db).db.rec_error_message
      = db.rec_error_message := by
  have ha := analyze_attempt_fail_marks_recording st ge t0 t1 db
  have hm := media_attempts_rec_unchanged fc fe st dg t0 t1 db
  rcases ha with hok | ⟨h1, h2⟩
  · rw [hok] at h; cases h
  · exact ⟨h1, h2, hm.1, hm.2.1, hm.2.2.1, hm.2.2.2.1, hm.2.2.2.2.1,
      hm.2.2.2.2.2⟩

/-- C10 witness: a concrete raising analyze attempt (unset generative-text
key) on a recording whose transcription exists. -/
theorem C10_analyze_marks_recording_failed_witness :
    (analyze_transcription_attempt settingsNoKeys geminiSample 40 41
      { dbReadyT with transcriptions :=
          [{ full_text := "hello world", confidence_score := 9,
             language_detected := "en", num_speakers := 2,
             audio_duration_seconds := 42 }] }).ok = false ∧
    (analyze_transcription_attempt settingsNoKeys geminiSample 40 41
      { dbReadyT with transcriptions :=
          [{ full_text := "hello world", confidence_score := 9,
             language_detected := "en", num_speakers := 2,
             audio_duration_seconds := 42 }] }).db.rec_status
      = RecStatus.failed :=
  ⟨by decide,
   (C10_analyze_marks_recording_failed settingsNoKeys geminiSample
     (ExtOutcome.ok ()) (ExtOutcome.ok ()) (ExtOutcome.ok trSample) 40 41 _
     (by decide)).1⟩

/-- C1 (amended): re-dispatching a stage whose ProcessingStep already exists
for this (job, stage-name) - in particular one in status completed - never
invokes the stage adapter and creates no new ProcessingStep, Transcription,
TranscriptionSegment or AIAnalysis rows; but instead of returning success,
every attempt raises on the (job, step_name) uniqueness constraint and the
dispatch fails after exhausting its retries. -/
theorem C1_duplicate_dispatch (n : StepName) (st : Settings)
    (fc fe : ExtOutcome Unit) (dg : ExtOutcome TranscribeResult)
    (ge : AnalyzeEnv) (times : Nat → Nat × Nat) (db : DB)
    (h : ∃ s ∈ db.steps, s.step_name = n ∧ s.status = StepStatus.completed) :
    (run_stage n st fc fe dg ge times db).ok = false ∧
    (run_stage n st fc fe dg ge times db).adapterCalls = 0 ∧
    (run_stage n st fc fe dg ge times db).db.steps = db.steps ∧
    (run_stage n st fc fe dg ge times db).db.transcriptions
      = db.transcriptions ∧
    (run_stage n st fc fe dg ge times db).db.segments = db.segments ∧
    (run_stage n st fc fe dg ge times db).db.analyses = db.analyses := by
  have hex : stepExists db n := by
    obtain ⟨s, hs, hn, _⟩ := h
    exact ⟨s, hs, hn⟩
  have hP : ∀ (i : Nat) (d : DB),
      (d.steps = db.steps ∧ d.transcriptions = db.transcriptions ∧
        d.segments = db.segments ∧ d.analyses = db.analyses) →
      ((fun i d => stage_attempt n st fc fe dg ge (times i).1 (times i).2 d)
          i d).ok = false ∧
      ((fun i d => stage_attempt n st fc fe dg ge (times i).1 (times i).2 d)
          i d).adapterCalled = false ∧
      (((fun i d => stage_attempt n st fc fe dg ge (times i).1 (times i).2 d)
          i d).db.steps = db.steps ∧
        ((fun i d => stage_attempt n st fc fe dg ge (times i).1 (times i).2 d)
          i d).db.transcriptions = db.transcriptions ∧
        ((fun i d => stage_attempt n st fc fe dg ge (times i).1 (times i).2 d)
          i d).db.segments = db.segments ∧
        ((fun i d => stage_attempt n st fc fe dg ge (times i).1 (times i).2 d)
          i d).db.analyses = db.analyses) := by
    intro i d hd
    have hex2 : stepExists d n := by
      unfold stepExists at hex ⊢
      rw [hd.1]
      exact hex
    have ha := stage_attempt_existing_step n st fc fe dg ge (times i).1
      (times i).2 d hex2
    exact ⟨ha.1, ha.2.1, ha.2.2.1.trans hd.1, ha.2.2.2.1.trans hd.2.1,
      ha.2.2.2.2.1.trans hd.2.2.1, ha.2.2.2.2.2.trans hd.2.2.2⟩
  unfold run_stage runTask
  have h1 := runTaskAux_all_fail
    (fun i d => stage_attempt n st fc fe dg ge (times i).1 (times i).2 d)
    (stage_retry_delay n)
    (fun d => d.steps = db.steps ∧ d.transcriptions = db.transcriptions ∧
      d.segments = db.segments ∧ d.analyses = db.analyses)
    (fun i d hd => ⟨(hP i d hd).1, (hP i d hd).2.2⟩)
    (stage_max_retries n + 1) 0 db 0 [] ⟨rfl, rfl, rfl, rfl⟩
  have h2 := runTaskAux_no_adapter
    (fun i d => stage_attempt n st fc fe dg ge (times i).1 (times i).2 d)
    (stage_retry_delay n)
    (fun d => d.steps = db.steps ∧ d.transcriptions = db.transcriptions ∧
      d.segments = db.segments ∧ d.analyses = db.analyses)
    hP (stage_max_retries n + 1) 0 db 0 [] ⟨rfl, rfl, rfl, rfl⟩
  exact ⟨h1.1, h2, h1.2.1.1, h1.2.1.2.1, h1.2.1.2.2.1, h1.2.1.2.2.2⟩

/-- C1 counterexample: with the transcode step already completed for the job,
re-dispatching the transcode stage does not return success - the executor
raises on the uniqueness constraint and the dispatch ends failed. -/
theorem C1_duplicate_dispatch_counterexample :
    (run_stage StepName.video_conversion settingsSample (ExtOutcome.ok ())
      (ExtOutcome.ok ()) (ExtOutcome.ok trSample) geminiSample timesSample
      dbAfterConv).ok = false := by decide

/-- C1 witness: the amended theorem applied to the concrete post-transcode
state. -/
theorem C1_duplicate_dispatch_witness :
    (∃ s ∈ dbAfterConv.steps, s.step_name = StepName.video_conversion ∧
      s.status = StepStatus.completed) ∧
    (run_stage StepName.video_conversion settingsSample (ExtOutcome.ok ())
      (ExtOutcome.ok ()) (ExtOutcome.ok trSample) geminiSample timesSample
      dbAfterConv).db.steps = dbAfterConv.steps ∧
    (run_stage StepName.video_conversion settingsSample (ExtOutcome.ok ())
      (ExtOutcome.ok ()) (ExtOutcome.ok trSample) geminiSample timesSample
      dbAfterConv).adapterCalls = 0 :=
  ⟨by decide,
   (C1_duplicate_dispatch StepName.video_conversion settingsSample
     (ExtOutcome.ok ()) (ExtOutcome.ok ()) (ExtOutcome.ok trSample)
     geminiSample timesSample dbAfterConv (by decide)).2.2.1,
   (C1_duplicate_dispatch StepName.video_conversion settingsSample
     (ExtOutcome.ok ()) (ExtOutcome.ok ()) (ExtOutcome.ok trSample)
     geminiSample timesSample dbAfterConv (by decide)).2.1⟩

/-- C5: on a recording with no active job, the orchestrator creates exactly
one ProcessingJob with status running and started_at the current instant,
sets Recording.status to processing, performs exactly one workflow dispatch,
and finishes on its first attempt; moreover, whatever the enqueue outcomes,
every scheduled retry of the orchestrator task uses the fixed 60 second
countdown and at most 4 attempts (1 + max_retries = 3) ever run. -/
theorem C5_start_pipeline (db : DB) (t : Nat → Nat) (eo : Nat → Bool)
    (hjobs : db.jobs = []) (henq : eo 0 = true) :
    (runTask (fun i d => process_recording_pipeline_attempt (eo i) (t i) d)
        60 3 db).ok = true ∧
    (runTask (fun i d => process_recording_pipeline_attempt (eo i) (t i) d)
        60 3 db).db.jobs
      = [{ status := JobStatus.running, progress_percentage := 0,
           started_at := some (t 0), completed_at := none }] ∧
    (runTask (fun i d => process_recording_pipeline_attempt (eo i) (t i) d)
        60 3 db).db.rec_status = RecStatus.processing ∧
    (runTask (fun i d => process_recording_pipeline_attempt (eo i) (t i) d)
        60 3 db).db.dispatches = db.dispatches + 1 ∧
    (runTask (fun i d => process_recording_pipeline_attempt (eo i) (t i) d)
        60 3 db).attempts = 1 ∧
    (∀ eo2 : Nat → Bool,
      (∀ d ∈ (runTask
          (fun i d => process_recording_pipeline_attempt (eo2 i) (t i) d)
          60 3 db).delays, d = 60) ∧
      (runTask (fun i d => process_recording_pipeline_attempt (eo2 i) (t i) d)
          60 3 db).attempts ≤ 4) := by
  have e0 : ((fun i d => process_recording_pipeline_attempt (eo i) (t i) d)
      0 db).ok = true := by
    simp [process_recording_pipeline_attempt, hjobs, henq]
  rw [runTask_first_ok _ _ _ _ e0]
  refine ⟨rfl, ?_, ?_, ?_, rfl, ?_⟩
  · simp [process_recording_pipeline_attempt, hjobs, henq]
  · simp [process_recording_pipeline_attempt, hjobs, henq]
  · simp [process_recording_pipeline_attempt, hjobs, henq]
  · intro eo2
    have hb := runTaskAux_attempts_delays
      (fun i d => process_recording_pipeline_attempt (eo2 i) (t i) d)
      60 (3 + 1) 0 db 0 []
    unfold runTask
    refine ⟨?_, by simpa using hb.1⟩
    intro d hd
    rcases hb.2 d hd with hmem | hd'
    · cases hmem
    · exact hd'

/-- C5 witness: the orchestrator applied to the fresh uploaded recording. -/
theorem C5_start_pipeline_witness :
    dbInit.jobs = [] ∧
    (runTask (fun i d => process_recording_pipeline_attempt
        ((fun _ : Nat => true) i) ((fun i : Nat => 10 + i) i) d)
        60 3 dbInit).ok = true ∧
    (runTask (fun i d => process_recording_pipeline_attempt
        ((fun _ : Nat => true) i) ((fun i : Nat => 10 + i) i) d)
        60 3 dbInit).db.dispatches = dbInit.dispatches + 1 :=
  ⟨rfl,
   (C5_start_pipeline dbInit (fun i => 10 + i) (fun _ => true) rfl rfl).1,
   (C5_start_pipeline dbInit (fun i => 10 + i) (fun _ => true) rfl
     rfl).2.2.2.1⟩

/-- C3 (amended): re-dispatching the orchestrator for a recording that already
has a ProcessingJob does not resume anything: it re-marks the Recording as
processing, then every attempt raises on the one-to-one job constraint, so no
job is created, no stage is ever dispatched, and the task fails after its
4 attempts; in particular it never skips to the first incomplete stage. -/
theorem C3_resume_not_implemented (t : Nat → Nat) (eo : Nat → Bool) (db : DB)
    (a : Job) (l : List Job) (hjobs : db.jobs = a :: l) :
    (runTask (fun i d => process_recording_pipeline_attempt (eo i) (t i) d)
        60 3 db).ok = false ∧
    (runTask (fun i d => process_recording_pipeline_attempt (eo i) (t i) d)
        60 3 db).db.jobs = db.jobs ∧
    (runTask (fun i d => process_recording_pipeline_attempt (eo i) (t i) d)
        60 3 db).db.steps = db.steps ∧
    (runTask (fun i d => process_recording_pipeline_attempt (eo i) (t i) d)
        60 3 db).db.dispatches = db.dispatches ∧
    (runTask (fun i d => process_recording_pipeline_attempt (eo i) (t i) d)
        60 3 db).db.rec_status = RecStatus.processing ∧
    (runTask (fun i d => process_recording_pipeline_attempt (eo i) (t i) d)
        60 3 db).attempts = 4 := by
  have e0 : ((fun i d => process_recording_pipeline_attempt (eo i) (t i) d)
      0 db).ok = false := by
    simp [process_recording_pipeline_attempt, hjobs]
  have hP : ∀ (i : Nat) (d : DB),
      (d.jobs = db.jobs ∧ d.steps = db.steps ∧ d.dispatches = db.dispatches ∧
        d.rec_status = RecStatus.processing) →
      ((fun i d => process_recording_pipeline_attempt (eo i) (t i) d)
          i d).ok = false ∧
      (((fun i d => process_recording_pipeline_attempt (eo i) (t i) d)
          i d).db.jobs = db.jobs ∧
        ((fun i d => process_recording_pipeline_attempt (eo i) (t i) d)
          i d).db.steps = db.steps ∧
        ((fun i d => process_recording_pipeline_attempt (eo i) (t i) d)
          i d).db.dispatches = db.dispatches ∧
        ((fun i d => process_recording_pipeline_attempt (eo i) (t i) d)
          i d).db.rec_status = RecStatus.processing) := by
    intro i d hd
    refine ⟨?_, ?_, ?_, ?_, ?_⟩ <;>
      simp [process_recording_pipeline_attempt, hd.1, hjobs, hd.2.1, hd.2.2.1]
  have hstart : ((fun i d => process_recording_pipeline_attempt (eo i) (t i) d)
        0 db).db.jobs = db.jobs ∧
      ((fun i d => process_recording_pipeline_attempt (eo i) (t i) d)
        0 db).db.steps = db.steps ∧
      ((fun i d => process_recording_pipeline_attempt (eo i) (t i) d)
        0 db).db.dispatches = db.dispatches ∧
      ((fun i d => process_recording_pipeline_attempt (eo i) (t i) d)
        0 db).db.rec_status = RecStatus.processing := by
    refine ⟨?_, ?_, ?_, ?_⟩ <;>
      simp [process_recording_pipeline_attempt, hjobs]
  rw [runTask_first_fail _ 60 3 db e0 (by decide)]
  have h1 := runTaskAux_all_fail
    (fun i d => process_recording_pipeline_attempt (eo i) (t i) d) 60
    (fun d => d.jobs = db.jobs ∧ d.steps = db.steps ∧
      d.dispatches = db.dispatches ∧ d.rec_status = RecStatus.processing)
    hP 3 1
    ((fun i d => process_recording_pipeline_attempt (eo i) (t i) d) 0 db).db
    (if ((fun i d => process_recording_pipeline_attempt (eo i) (t i) d)
        0 db).adapterCalled then 1 else 0)
    [60] hstart
  exact ⟨h1.1, h1.2.1.1, h1.2.1.2.1, h1.2.1.2.2.1, h1.2.1.2.2.2, h1.2.2.1⟩

/-- C3 counterexample: on the concrete failed pipeline (transcode completed,
audio extraction failed) the re-dispatched orchestrator dispatches nothing at
all and fails, instead of dispatching the first incomplete stage. -/
theorem C3_resume_counterexample :
    (runTask (fun i d => process_recording_pipeline_attempt
        ((fun _ : Nat => true) i) ((fun i : Nat => 50 + i) i) d)
        60 3 dbResume).ok = false ∧
    (runTask (fun i d => process_recording_pipeline_attempt
        ((fun _ : Nat => true) i) ((fun i : Nat => 50 + i) i) d)
        60 3 dbResume).db.dispatches = dbResume.dispatches := by decide

/-- C3 witness: the amended theorem applied to the concrete failed pipeline. -/
theorem C3_resume_witness :
    dbResume.jobs = { status := JobStatus.running, progress_percentage := 0,
                      started_at := some 10, completed_at := none } :: [] ∧
    (runTask (fun i d => process_recording_pipeline_attempt
        ((fun _ : Nat => true) i) ((fun i : Nat => 50 + i) i) d)
        60 3 dbResume).db.dispatches = dbResume.dispatches :=
  ⟨by decide,
   (C3_resume_not_implemented (fun i => 50 + i) (fun _ => true) dbResume
     { status := JobStatus.running, progress_percentage := 0,
       started_at := some 10, completed_at := none } [] (by decide)).2.2.2.1⟩

/-- A transcribe-stage dispatch whose first attempt fails before the adapter
call (the step row is created, marked failed with `msg`) keeps failing on the
step-uniqueness constraint on every retry: 4 attempts run, the adapter is
never invoked, and the single step row ends failed with the first error. -/
theorem run_stage_transcribe_fail_before_adapter (st : Settings)
    (fc fe : ExtOutcome Unit) (dg : ExtOutcome TranscribeResult)
    (ge : AnalyzeEnv) (times : Nat → Nat × Nat) (db : DB) (msg : String)
    (h0 : transcribe_audio_attempt st dg (times 0).1 (times 0).2 db
      = failStep
          { db with steps := [newRunningStep StepName.speech_to_text
            (times 0).1] }
          StepName.speech_to_text msg false) :
    (run_stage StepName.speech_to_text st fc fe dg ge times db).ok = false ∧
    (run_stage StepName.speech_to_text st fc fe dg ge times db).adapterCalls
      = 0 ∧
    (run_stage StepName.speech_to_text st fc fe dg ge times db).attempts
      = 4 ∧
    (run_stage StepName.speech_to_text st fc fe dg ge times db).delays
      = [180, 180, 180] ∧
    (run_stage StepName.speech_to_text st fc fe dg ge times db).db.steps
      = [{ newRunningStep StepName.speech_to_text (times 0).1 with
            status := StepStatus.failed, error_message := msg }] := by
  have e0 : ((fun i d => stage_attempt StepName.speech_to_text st fc fe dg ge
      (times i).1 (times i).2 d) 0 db).ok = false := by
    simp only [stage_attempt, h0, failStep]
  have e0' : ((fun i d => stage_attempt StepName.speech_to_text st fc fe dg ge
      (times i).1 (times i).2 d) 0 db).adapterCalled = false := by
    simp only [stage_attempt, h0, failStep]
  have e0db : ((fun i d => stage_attempt StepName.speech_to_text st fc fe dg ge
      (times i).1 (times i).2 d) 0 db).db.steps
      = [{ newRunningStep StepName.speech_to_text (times 0).1 with
            status := StepStatus.failed, error_message := msg }] := by
    simp [stage_attempt, h0, failStep, markStepFailed, newRunningStep]
  have hP : ∀ (i : Nat) (d : DB),
      (d.steps = [{ newRunningStep StepName.speech_to_text (times 0).1 with
        status := StepStatus.failed, error_message := msg }]) →
      ((fun i d => stage_attempt StepName.speech_to_text st fc fe dg ge
          (times i).1 (times i).2 d) i d).ok = false ∧
      ((fun i d => stage_attempt StepName.speech_to_text st fc fe dg ge
          (times i).1 (times i).2 d) i d).adapterCalled = false ∧
      ((fun i d => stage_attempt StepName.speech_to_text st fc fe dg ge
          (times i).1 (times i).2 d) i d).db.steps
        = [{ newRunningStep StepName.speech_to_text (times 0).1 with
              status := StepStatus.failed, error_message := msg }] := by
    intro i d hd
    have hex : stepExists d StepName.speech_to_text := by
      refine ⟨{ newRunningStep StepName.speech_to_text (times 0).1 with
                status := StepStatus.failed, error_message := msg }, ?_, rfl⟩
      rw [hd]
      exact List.mem_singleton.mpr rfl
    have ha := stage_attempt_existing_step StepName.speech_to_text st fc fe
      dg ge (times i).1 (times i).2 d hex
    exact ⟨ha.1, ha.2.1, ha.2.2.1.trans hd⟩
  unfold run_stage
  rw [show stage_retry_delay StepName.speech_to_text = 180 from rfl,
    show stage_max_retries StepName.speech_to_text = 3 from rfl]
  rw [runTask_first_fail _ 180 3 db e0 (by decide)]
  have h1 := runTaskAux_all_fail
    (fun i d => stage_attempt StepName.speech_to_text st fc fe dg ge
      (times i).1 (times i).2 d) 180
    (fun d => d.steps = [{ newRunningStep StepName.speech_to_text
      (times 0).1 with status := StepStatus.failed, error_message := msg }])
    (fun i d hd => ⟨(hP i d hd).1, (hP i d hd).2.2⟩) 3 1
    ((fun i d => stage_attempt StepName.speech_to_text st fc fe dg ge
      (times i).1 (times i).2 d) 0 db).db
    (if ((fun i d => stage_attempt StepName.speech_to_text st fc fe dg ge
      (times i).1 (times i).2 d) 0 db).adapterCalled then 1 else 0)
    [180] e0db
  have h2 := runTaskAux_no_adapter
    (fun i d => stage_attempt StepName.speech_to_text st fc fe dg ge
      (times i).1 (times i).2 d) 180
    (fun d => d.steps = [{ newRunningStep StepName.speech_to_text
      (times 0).1 with status := StepStatus.failed, error_message := msg }])
    hP 3 1
    ((fun i d => stage_attempt StepName.speech_to_text st fc fe dg ge
      (times i).1 (times i).2 d) 0 db).db
    (if ((fun i d => stage_attempt StepName.speech_to_text st fc fe dg ge
      (times i).1 (times i).2 d) 0 db).adapterCalled then 1 else 0)
    [180] e0db
  refine ⟨h1.1, ?_, by simpa using h1.2.2.1, by simpa using h1.2.2.2,
    h1.2.1⟩
  rw [h2, e0']
  simp

/-- C4 (amended): a configuration error (unset speech-to-text key) or a data
error (missing prerequisite audio artifact) makes the transcribe stage fail
before its adapter is ever invoked and is surfaced as a Step failure with the
error text; however, the failure is not exhausted immediately: the task is
retried like any other error (4 attempts in total with the 180 second
stage countdown) rather than failing with zero retry attempts. -/
theorem C4_config_data_errors (st1 st2 : Settings) (fc fe : ExtOutcome Unit)
    (dg : ExtOutcome TranscribeResult) (ge : AnalyzeEnv)
    (times : Nat → Nat × Nat) (db1 db2 : DB) (a1 : Job) (l1 : List Job)
    (a2 : Job) (l2 : List Job)
    (hj1 : db1.jobs = a1 :: l1) (hs1 : db1.steps = [])
    (hkey1 : st1.deepgramApiKey = "")
    (hj2 : db2.jobs = a2 :: l2) (hs2 : db2.steps = [])
    (hkey2 : ¬ st2.deepgramApiKey = "")
    (hfile2 : FileType.audio_extract ∉ db2.files) :
    (run_stage StepName.speech_to_text st1 fc fe dg ge times db1).ok
      = false ∧
    (run_stage StepName.speech_to_text st1 fc fe dg ge times db1).adapterCalls
      = 0 ∧
    (run_stage StepName.speech_to_text st1 fc fe dg ge times db1).attempts
      = 4 ∧
    (run_stage StepName.speech_to_text st1 fc fe dg ge times db1).delays
      = [180, 180, 180] ∧
    (∃ s, (run_stage StepName.speech_to_text st1 fc fe dg ge times
        db1).db.steps = [s] ∧
      s.step_name = StepName.speech_to_text ∧ s.status = StepStatus.failed ∧
      s.error_message = "DEEPGRAM_API_KEY not configured") ∧
    (run_stage StepName.speech_to_text st2 fc fe dg ge times db2).ok
      = false ∧
    (run_stage StepName.speech_to_text st2 fc fe dg ge times db2).adapterCalls
      = 0 ∧
    (run_stage StepName.speech_to_text st2 fc fe dg ge times db2).attempts
      = 4 ∧
    (∃ s, (run_stage StepName.speech_to_text st2 fc fe dg ge times
        db2).db.steps = [s] ∧
      s.step_name = StepName.speech_to_text ∧ s.status = StepStatus.failed ∧
      s.error_message = "RecordingFile matching query does not exist.") := by
  have h01 : transcribe_audio_attempt st1 dg (times 0).1 (times 0).2 db1
      = failStep
          { db1 with steps := [newRunningStep StepName.speech_to_text
            (times 0).1] }
          StepName.speech_to_text "DEEPGRAM_API_KEY not configured" false := by
    unfold transcribe_audio_attempt
    rw [hj1]
    simp [stepExists, hs1, hkey1]
  have h02 : transcribe_audio_attempt st2 dg (times 0).1 (times 0).2 db2
      = failStep
          { db2 with steps := [newRunningStep StepName.speech_to_text
            (times 0).1] }
          StepName.speech_to_text
          "RecordingFile matching query does not exist." false := by
    unfold transcribe_audio_attempt
    rw [hj2]
    simp [stepExists, hs2, hkey2, hfile2]
  have r1 := run_stage_transcribe_fail_before_adapter st1 fc fe dg ge times
    db1 "DEEPGRAM_API_KEY not configured" h01
  have r2 := run_stage_transcribe_fail_before_adapter st2 fc fe dg ge times
    db2 "RecordingFile matching query does not exist." h02
  refine ⟨r1.1, r1.2.1, r1.2.2.1, r1.2.2.2.1, ⟨_, r1.2.2.2.2, ?_, ?_, ?_⟩,
    r2.1, r2.2.1, r2.2.2.1, ⟨_, r2.2.2.2.2, ?_, ?_, ?_⟩⟩ <;>
    simp [newRunningStep]

/-- C4 counterexample: with an unset speech-to-text key, the transcribe stage
does not fail with zero retry attempts - the task runs 4 attempts and
schedules three 180 second retries. -/
theorem C4_config_counterexample :
    (run_stage StepName.speech_to_text settingsNoKeys (ExtOutcome.ok ())
      (ExtOutcome.ok ()) (ExtOutcome.ok trSample) geminiSample timesSample
      dbReadyT).attempts = 4 ∧
    (run_stage StepName.speech_to_text settingsNoKeys (ExtOutcome.ok ())
      (ExtOutcome.ok ()) (ExtOutcome.ok trSample) geminiSample timesSample
      dbReadyT).delays = [180, 180, 180] ∧
    (run_stage StepName.speech_to_text settingsNoKeys (ExtOutcome.ok ())
      (ExtOutcome.ok ()) (ExtOutcome.ok trSample) geminiSample timesSample
      dbReadyT).ok = false := by decide

/-- C4 witness: the amended theorem applied to concrete configuration-error
and data-error states. -/
theorem C4_config_data_errors_witness :
    dbReadyT.jobs = { status := JobStatus.running, progress_percentage := 0,
                      started_at := some 10, completed_at := none } :: [] ∧
    dbReadyT.steps = [] ∧
    settingsNoKeys.deepgramApiKey = "" ∧
    dbWithJob.jobs = { status := JobStatus.running, progress_percentage := 0,
                       started_at := some 10, completed_at := none } :: [] ∧
    dbWithJob.steps = [] ∧
    ¬ settingsSample.deepgramApiKey = "" ∧
    FileType.audio_extract ∉ dbWithJob.files ∧
    (run_stage StepName.speech_to_text settingsNoKeys (ExtOutcome.ok ())
      (ExtOutcome.ok ()) (ExtOutcome.ok trSample) geminiSample timesSample
      dbReadyT).attempts = 4 ∧
    (run_stage StepName.speech_to_text settingsSample (ExtOutcome.ok ())
      (ExtOutcome.ok ()) (ExtOutcome.ok trSample) geminiSample timesSample
      dbWithJob).attempts = 4 :=
  ⟨by decide, by decide, by decide, by decide, by decide, by decide,
   by decide,
   (C4_config_data_errors settingsNoKeys settingsSample (ExtOutcome.ok ())
     (ExtOutcome.ok ()) (ExtOutcome.ok trSample) geminiSample timesSample
     dbReadyT dbWithJob
     { status := JobStatus.running, progress_percentage := 0,
       started_at := some 10, completed_at := none } []
     { status := JobStatus.running, progress_percentage := 0,
       started_at := some 10, completed_at := none } []
     (by decide) (by decide) (by decide) (by decide) (by decide) (by decide)
     (by decide)).2.2.1,
   (C4_config_data_errors settingsNoKeys settingsSample (ExtOutcome.ok ())
     (ExtOutcome.ok ()) (ExtOutcome.ok trSample) geminiSample timesSample
     dbReadyT dbWithJob
     { status := JobStatus.running, progress_percentage := 0,
       started_at := some 10, completed_at := none } []
     { status := JobStatus.running, progress_percentage := 0,
       started_at := some 10, completed_at := none } []
     (by decide) (by decide) (by decide) (by decide) (by decide) (by decide)
     (by decide)).2.2.2.2.2.2.2.1⟩

/-- C2 (amended): when the transcode stage exhausts its retry budget
(max_retries = 2, so 3 attempts), its ProcessingStep is marked failed with
the captured error text and the chain halts - no ProcessingStep for
audio-extraction, transcription or analysis is ever created; however the
owning ProcessingJob and the Recording are left untouched (they are not
marked failed and no error text is stored on the Recording). -/
theorem C2_exhausted_retries (st : Settings) (env : PipelineEnv) (db : DB)
    (a : Job) (l : List Job) (hjobs : db.jobs = a :: l)
    (hsteps : db.steps = [])
    (hfile : FileType.original_webm ∈ db.files)
    (m : Nat → String) (hff : ∀ i, env.ffmpegConvert i = ExtOutcome.err (m i)) :
    (runChain st env db).ok = false ∧
    (∃ s, (runChain st env db).db.steps = [s] ∧
      s.step_name = StepName.video_conversion ∧
      s.status = StepStatus.failed ∧
      s.error_message = "FFmpeg failed: " ++ m 0) ∧
    (¬ ∃ s ∈ (runChain st env db).db.steps,
      s.step_name = StepName.audio_extraction) ∧
    (¬ ∃ s ∈ (runChain st env db).db.steps,
      s.step_name = StepName.speech_to_text) ∧
    (¬ ∃ s ∈ (runChain st env db).db.steps,
      s.step_name = StepName.ai_analysis) ∧
    (runChain st env db).db.jobs = db.jobs ∧
    (runChain st env db).db.rec_status = db.rec_status ∧
    (runChain st env db).db.rec_error_message = db.rec_error_message := by
  have h0 : convert_webm_to_mp4_attempt (env.ffmpegConvert 0) (env.timesC 0).1
      (env.timesC 0).2 db
      = failStep
          { db with steps := [newRunningStep StepName.video_conversion
                      (env.timesC 0).1],
                    localFiles := db.localFiles ++ [webmScratch] }
          StepName.video_conversion ("FFmpeg failed: " ++ m 0) true := by
    unfold convert_webm_to_mp4_attempt
    rw [hjobs, hff 0]
    simp [stepExists, hsteps, hfile]
  have e0 : ((fun i d => convert_webm_to_mp4_attempt (env.ffmpegConvert i)
      (env.timesC i).1 (env.timesC i).2 d) 0 db).ok = false := by
    simp only [h0, failStep]
  have e0P : ((fun i d => convert_webm_to_mp4_attempt (env.ffmpegConvert i)
        (env.timesC i).1 (env.timesC i).2 d) 0 db).db.steps
        = [failedStepOf StepName.video_conversion (env.timesC 0).1
            ("FFmpeg failed: " ++ m 0)] ∧
      ((fun i d => convert_webm_to_mp4_attempt (env.ffmpegConvert i)
        (env.timesC i).1 (env.timesC i).2 d) 0 db).db.jobs = db.jobs ∧
      ((fun i d => convert_webm_to_mp4_attempt (env.ffmpegConvert i)
        (env.timesC i).1 (env.timesC i).2 d) 0 db).db.rec_status
        = db.rec_status ∧
      ((fun i d => convert_webm_to_mp4_attempt (env.ffmpegConvert i)
        (env.timesC i).1 (env.timesC i).2 d) 0 db).db.rec_error_message
        = db.rec_error_message := by
    refine ⟨?_, ?_, ?_, ?_⟩ <;>
      simp [h0, failStep, markStepFailed, newRunningStep, failedStepOf]
  have hP : ∀ (i : Nat) (d : DB),
      (d.steps = [failedStepOf StepName.video_conversion (env.timesC 0).1
          ("FFmpeg failed: " ++ m 0)] ∧
        d.jobs = db.jobs ∧ d.rec_status = db.rec_status ∧
        d.rec_error_message = db.rec_error_message) →
      ((fun i d => convert_webm_to_mp4_attempt (env.ffmpegConvert i)
          (env.timesC i).1 (env.timesC i).2 d) i d).ok = false ∧
      (((fun i d => convert_webm_to_mp4_attempt (env.ffmpegConvert i)
          (env.timesC i).1 (env.timesC i).2 d) i d).db.steps
        = [failedStepOf StepName.video_conversion (env.timesC 0).1
            ("FFmpeg failed: " ++ m 0)] ∧
        ((fun i d => convert_webm_to_mp4_attempt (env.ffmpegConvert i)
          (env.timesC i).1 (env.timesC i).2 d) i d).db.jobs = db.jobs ∧
        ((fun i d => convert_webm_to_mp4_attempt (env.ffmpegConvert i)
          (env.timesC i).1 (env.timesC i).2 d) i d).db.rec_status
          = db.rec_status ∧
        ((fun i d => convert_webm_to_mp4_attempt (env.ffmpegConvert i)
          (env.timesC i).1 (env.timesC i).2 d) i d).db.rec_error_message
          = db.rec_error_message) := by
    intro i d hd
    have hex : stepExists d StepName.video_conversion := by
      refine ⟨failedStepOf StepName.video_conversion (env.timesC 0).1
        ("FFmpeg failed: " ++ m 0), ?_, rfl⟩
      rw [hd.1]
      exact List.mem_singleton.mpr rfl
    have ha := stage_attempt_existing_step StepName.video_conversion
      settingsSample (env.ffmpegConvert i) (ExtOutcome.ok ())
      (ExtOutcome.ok trSample) geminiSample (env.timesC i).1 (env.timesC i).2
      d hex
    simp only [stage_attempt] at ha
    have hj := media_attempts_jobs_unchanged (env.ffmpegConvert i)
      (ExtOutcome.ok ()) settingsSample (ExtOutcome.ok trSample)
      (env.timesC i).1 (env.timesC i).2 d
    have hr := media_attempts_rec_unchanged (env.ffmpegConvert i)
      (ExtOutcome.ok ()) settingsSample (ExtOutcome.ok trSample)
      (env.timesC i).1 (env.timesC i).2 d
    exact ⟨ha.1, ha.2.2.1.trans hd.1, hj.1.trans hd.2.1,
      hr.1.trans hd.2.2.1, hr.2.1.trans hd.2.2.2⟩
  have h1 := runTaskAux_all_fail
    (fun i d => convert_webm_to_mp4_attempt (env.ffmpegConvert i)
      (env.timesC i).1 (env.timesC i).2 d) 120
    (fun d => d.steps = [failedStepOf StepName.video_conversion
        (env.timesC 0).1 ("FFmpeg failed: " ++ m 0)] ∧
      d.jobs = db.jobs ∧ d.rec_status = db.rec_status ∧
      d.rec_error_message = db.rec_error_message)
    hP 2 1
    ((fun i d => convert_webm_to_mp4_attempt (env.ffmpegConvert i)
      (env.timesC i).1 (env.timesC i).2 d) 0 db).db
    (if ((fun i d => convert_webm_to_mp4_attempt (env.ffmpegConvert i)
      (env.timesC i).1 (env.timesC i).2 d) 0 db).adapterCalled then 1 else 0)
    [120] e0P
  have hchain : runChain st env db
      = { db := (runTaskAux
          (fun i d => convert_webm_to_mp4_attempt (env.ffmpegConvert i)
            (env.timesC i).1 (env.timesC i).2 d) 120 2 1
          ((fun i d => convert_webm_to_mp4_attempt (env.ffmpegConvert i)
            (env.timesC i).1 (env.timesC i).2 d) 0 db).db
          (if ((fun i d => convert_webm_to_mp4_attempt (env.ffmpegConvert i)
            (env.timesC i).1 (env.timesC i).2 d) 0 db).adapterCalled
           then 1 else 0)
          [120]).db, ok := false } := by
    unfold runChain
    rw [runTask_first_fail _ 120 2 db e0 (by decide)]
    simp [h1.1]
  rw [hchain]
  refine ⟨rfl, ⟨_, h1.2.1.1, by simp [failedStepOf, newRunningStep],
    by simp [failedStepOf, newRunningStep],
    by simp [failedStepOf, newRunningStep]⟩, ?_, ?_, ?_, h1.2.1.2.1,
    h1.2.1.2.2.1, h1.2.1.2.2.2⟩ <;>
  · rintro ⟨s, hs, hn⟩
    rw [h1.2.1.1] at hs
    rw [List.mem_singleton.mp hs] at hn
    simp [failedStepOf, newRunningStep] at hn

/-- C2 counterexample: on the concrete recording whose transcode always
fails, the step ends failed but the job is still running and the recording is
still processing - neither is marked failed as the claim requires. -/
theorem C2_exhausted_retries_counterexample :
    (∃ s ∈ (runChain settingsSample envFailConv dbWithJob).db.steps,
      s.step_name = StepName.video_conversion ∧
      s.status = StepStatus.failed) ∧
    (∀ j ∈ (runChain settingsSample envFailConv dbWithJob).db.jobs,
      j.status ≠ JobStatus.failed) ∧
    (runChain settingsSample envFailConv dbWithJob).db.rec_status
      ≠ RecStatus.failed ∧
    (runChain settingsSample envFailConv dbWithJob).db.rec_error_message
      = "" := by decide

/-- C2 witness: the amended theorem applied to the concrete always-failing
transcode environment. -/
theorem C2_exhausted_retries_witness :
    dbWithJob.jobs = { status := JobStatus.running, progress_percentage := 0,
                       started_at := some 10, completed_at := none } :: [] ∧
    dbWithJob.steps = [] ∧
    FileType.original_webm ∈ dbWithJob.files ∧
    (∀ i : Nat, envFailConv.ffmpegConvert i
      = ExtOutcome.err ((fun _ : Nat => "boom") i)) ∧
    (runChain settingsSample envFailConv dbWithJob).ok = false ∧
    (runChain settingsSample envFailConv dbWithJob).db.jobs
      = dbWithJob.jobs :=
  ⟨by decide, by decide, by decide, fun i => rfl,
   (C2_exhausted_retries settingsSample envFailConv dbWithJob
     { status := JobStatus.running, progress_percentage := 0,
       started_at := some 10, completed_at := none } []
     (by decide) (by decide) (by decide) (fun _ => "boom")
     (fun i => rfl)).1,
   (C2_exhausted_retries settingsSample envFailConv dbWithJob
     { status := JobStatus.running, progress_percentage := 0,
       started_at := some 10, completed_at := none } []
     (by decide) (by decide) (by decide) (fun _ => "boom")
     (fun i => rfl)).2.2.2.2.2.1⟩

/-- C6: a successful full pipeline run on a fresh recording leaves exactly one
ProcessingJob (completed, progress 100, completed_at set), exactly four
ProcessingSteps - one per stage, in chain order, all completed - exactly one
Transcription, exactly four AIAnalysis rows (one per analysis type, in the
order they are produced), and the Recording completed with completed_at
set. -/
theorem C6_full_pipeline_success (st : Settings) (env : PipelineEnv) (db : DB)
    (hjobs : db.jobs = []) (hsteps : db.steps = [])
    (hfiles : db.files = [FileType.original_webm])
    (htr : db.transcriptions = []) (hseg : db.segments = [])
    (han : db.analyses = []) (hlf : db.localFiles = [])
    (hdg : ¬ st.deepgramApiKey = "") (hgm : ¬ st.geminiApiKey = "")
    (henq : env.enqueueOk 0 = true)
    (hfc : env.ffmpegConvert 0 = ExtOutcome.ok ())
    (hfe : env.ffmpegExtract 0 = ExtOutcome.ok ())
    (r : TranscribeResult) (hdp : env.deepgram 0 = ExtOutcome.ok r)
    (g1 g2 g3 g4 : GeminiOut)
    (hg : env.gemini 0 = { summaryOut := ExtOutcome.ok g1,
                           actionItemsOut := ExtOutcome.ok g2,
                           keyPointsOut := ExtOutcome.ok g3,
                           sentimentOut := ExtOutcome.ok g4 }) :
    (runFullPipeline st env db).ok = true ∧
    (∃ j, (runFullPipeline st env db).db.jobs = [j] ∧
      j.status = JobStatus.completed ∧ j.progress_percentage = 100 ∧
      j.completed_at.isSome = true) ∧
    (runFullPipeline st env db).db.steps.map Step.step_name
      = [StepName.video_conversion, StepName.audio_extraction,
         StepName.speech_to_text, StepName.ai_analysis] ∧
    (∀ s ∈ (runFullPipeline st env db).db.steps,
      s.status = StepStatus.completed) ∧
    (runFullPipeline st env db).db.transcriptions.length = 1 ∧
    (runFullPipeline st env db).db.analyses.map Analysis.analysis_type
      = [AnalysisType.summary, AnalysisType.action_items,
         AnalysisType.key_points, AnalysisType.sentiment] ∧
    (runFullPipeline st env db).db.rec_status = RecStatus.completed ∧
    (runFullPipeline st env db).db.rec_completed_at.isSome = true := by
  obtain ⟨rs, re, rc, jbs, sts, fls, trs, sgs, ans, dp, lf⟩ := db
  simp only [] at hjobs hsteps hfiles htr hseg han hlf
  subst hjobs hsteps hfiles htr hseg han hlf
  simp [runFullPipeline, runChain, runTask_first_ok,
    process_recording_pipeline_attempt, convert_webm_to_mp4_attempt,
    extract_audio_from_video_attempt, transcribe_audio_attempt,
    analyze_transcription_attempt, stepExists, analysisExists, failStep,
    failNoStep, markStepFailed, markStepCompleted, newRunningStep,
    segment_of_utterance, mkAnalysis, analyzeFail, henq, hfc, hfe, hdp, hg,
    hdg, hgm]

/-- C6 witness: a concrete successful full run from the fresh recording. -/
theorem C6_full_pipeline_success_witness :
    dbInit.jobs = [] ∧ dbInit.steps = [] ∧
    dbInit.files = [FileType.original_webm] ∧
    envOkSample.enqueueOk 0 = true ∧
    (runFullPipeline settingsSample envOkSample dbInit).ok = true ∧
    (runFullPipeline settingsSample envOkSample dbInit).db.rec_status
      = RecStatus.completed ∧
    (runFullPipeline settingsSample envOkSample dbInit).db.analyses.map
      Analysis.analysis_type
      = [AnalysisType.summary, AnalysisType.action_items,
         AnalysisType.key_points, AnalysisType.sentiment] :=
  ⟨rfl, rfl, rfl, rfl,
   (C6_full_pipeline_success settingsSample envOkSample dbInit rfl rfl rfl
     rfl rfl rfl rfl (by decide) (by decide) rfl rfl rfl trSample rfl
     { text := "a short summary", tokens := 5 }
     { text := "intro\n1. do x\n- do y\n* do z\nclosing", tokens := 5 }
     { text := "- p1\n- p2", tokens := 5 }
     { text := "positive", tokens := 5 } rfl).1,
   (C6_full_pipeline_success settingsSample envOkSample dbInit rfl rfl rfl
     rfl rfl rfl rfl (by decide) (by decide) rfl rfl rfl trSample rfl
     { text := "a short summary", tokens := 5 }
     { text := "intro\n1. do x\n- do y\n* do z\nclosing", tokens := 5 }
     { text := "- p1\n- p2", tokens := 5 }
     { text := "positive", tokens := 5 } rfl).2.2.2.2.2.2.1,
   (C6_full_pipeline_success settingsSample envOkSample dbInit rfl rfl rfl
     rfl rfl rfl rfl (by decide) (by decide) rfl rfl rfl trSample rfl
     { text := "a short summary", tokens := 5 }
     { text := "intro\n1. do x\n- do y\n* do z\nclosing", tokens := 5 }
     { text := "- p1\n- p2", tokens := 5 }
     { text := "positive", tokens := 5 } rfl).2.2.2.2.2.1⟩

/-- The speaker counter of the transcribe stage equals the number of distinct
speaker ids over the utterances, also when there are none. -/
theorem transcription_num_speakers_eq (us : List Utterance) :
    transcription_num_speakers us
      = ((us.map Utterance.speaker).dedup).length := by
  unfold transcription_num_speakers
  rcases us with _ | ⟨u, us⟩ <;> simp

/-- C8: a transcribe run whose adapter returns utterances creates one
Transcription whose num_speakers is the number of distinct speaker ids over
the utterances, and exactly one TranscriptionSegment per utterance, each
carrying speaker_id and the label "Speaker N" for the utterance speaker N. -/
theorem C8_transcribe_segments (st : Settings) (r : TranscribeResult)
    (t0 t1 : Nat) (db : DB) (a : Job) (l : List Job)
    (hjobs : db.jobs = a :: l)
    (hstep : ¬ stepExists db StepName.speech_to_text)
    (hkey : ¬ st.deepgramApiKey = "")
    (hfile : FileType.audio_extract ∈ db.files)
    (htr : db.transcriptions = []) :
    (transcribe_audio_attempt st (ExtOutcome.ok r) t0 t1 db).ok = true ∧
    (∃ tr, (transcribe_audio_attempt st (ExtOutcome.ok r) t0 t1
        db).db.transcriptions = [tr] ∧
      tr.num_speakers = ((r.utterances.map Utterance.speaker).dedup).length) ∧
    List.Forall₂ (fun (sg : Segment) (u : Utterance) =>
        sg.speaker_label = "Speaker " ++ toString u.speaker ∧
        sg.speaker_id = some u.speaker ∧ sg.text = u.transcript)
      ((transcribe_audio_attempt st (ExtOutcome.ok r) t0 t1
        db).db.segments.drop db.segments.length)
      r.utterances ∧
    (transcribe_audio_attempt st (ExtOutcome.ok r) t0 t1
        db).db.segments.length
      = db.segments.length + r.utterances.length := by
  have hseg : (transcribe_audio_attempt st (ExtOutcome.ok r) t0 t1
      db).db.segments
      = db.segments ++ r.utterances.map segment_of_utterance := by
    unfold transcribe_audio_attempt
    rw [hjobs]
    simp [hstep, hkey, hfile, htr, markStepCompleted]
  refine ⟨?_, ?_, ?_, ?_⟩
  · unfold transcribe_audio_attempt
    rw [hjobs]
    simp [hstep, hkey, hfile, htr]
  · refine ⟨{ full_text := r.transcript, confidence_score := r.confidence,
              language_detected := r.language.getD "en",
              num_speakers := transcription_num_speakers r.utterances,
              audio_duration_seconds := r.duration }, ?_,
        transcription_num_speakers_eq r.utterances⟩
    unfold transcribe_audio_attempt
    rw [hjobs]
    simp [hstep, hkey, hfile, htr, markStepCompleted]
  · rw [hseg, List.drop_left]
    generalize r.utterances = us
    induction us with
    | nil => exact List.Forall₂.nil
    | cons u us ih => exact List.Forall₂.cons ⟨rfl, rfl, rfl⟩ ih
  · rw [hseg]
    simp

/-- C8 witness: two utterances with speakers 0 and 1 yield num_speakers 2 and
segments labelled Speaker 0 and Speaker 1. -/
theorem C8_transcribe_segments_witness :
    dbReadyT.jobs = { status := JobStatus.running, progress_percentage := 0,
                      started_at := some 10, completed_at := none } :: [] ∧
    ¬ stepExists dbReadyT StepName.speech_to_text ∧
    ¬ settingsSample.deepgramApiKey = "" ∧
    FileType.audio_extract ∈ dbReadyT.files ∧
    dbReadyT.transcriptions = [] ∧
    (∃ tr, (transcribe_audio_attempt settingsSample (ExtOutcome.ok trSample)
        30 31 dbReadyT).db.transcriptions = [tr] ∧
      tr.num_speakers
        = ((trSample.utterances.map Utterance.speaker).dedup).length) ∧
    (transcribe_audio_attempt settingsSample (ExtOutcome.ok trSample) 30 31
        dbReadyT).db.segments.length
      = dbReadyT.segments.length + trSample.utterances.length :=
  ⟨by decide, by decide, by decide, by decide, by decide,
   (C8_transcribe_segments settingsSample trSample 30 31 dbReadyT
     { status := JobStatus.running, progress_percentage := 0,
       started_at := some 10, completed_at := none } []
     (by decide) (by decide) (by decide) (by decide) (by decide)).2.1,
   (C8_transcribe_segments settingsSample trSample 30 31 dbReadyT
     { status := JobStatus.running, progress_percentage := 0,
       started_at := some 10, completed_at := none } []
     (by decide) (by decide) (by decide) (by decide) (by decide)).2.2.2⟩

/-- Deleting a scratch file that was appended to a list it did not occur in
restores the list. -/
theorem erase_one_scratch (L : List String) (w : String) (hw : w ∉ L) :
    (L ++ [w]).erase w = L := by
  rw [List.erase_append_right _ hw]
  simp

/-- Deleting the two scratch files appended to a list they did not occur in
restores the list. -/
theorem erase_two_scratch (L : List String) (w p : String) (hw : w ∉ L)
    (hp : p ∉ L) :
    ((L ++ [w, p]).erase w).erase p = L := by
  rw [List.erase_append_right _ hw]
  have h1 : ([w, p] : List String).erase w = [p] := by simp
  rw [h1, List.erase_append_right _ hp]
  simp

/-- A returning transcode attempt leaves the scratch directory as it found
it. -/
theorem convert_ok_scratch (fc : ExtOutcome Unit) (t0 t1 : Nat) (db : DB)
    (hw : webmScratch ∉ db.localFiles) (hm : mp4Scratch ∉ db.localFiles) :
    (convert_webm_to_mp4_attempt fc t0 t1 db).ok = true →
    (convert_webm_to_mp4_attempt fc t0 t1 db).db.localFiles
      = db.localFiles := by
  simp only [convert_webm_to_mp4_attempt]
  repeat' split
  all_goals intro hok
  all_goals
    first
      | (simp [markStepCompleted]
         exact erase_two_scratch db.localFiles webmScratch mp4Scratch hw hm)
      | (exfalso; simp [failStep, failNoStep] at hok)

/-- A returning audio-extraction attempt leaves the scratch directory as it
found it. -/
theorem extract_ok_scratch (fe : ExtOutcome Unit) (t0 t1 : Nat) (db : DB)
    (hw : webmScratch ∉ db.localFiles) (hau : audioScratch ∉ db.localFiles) :
    (extract_audio_from_video_attempt fe t0 t1 db).ok = true →
    (extract_audio_from_video_attempt fe t0 t1 db).db.localFiles
      = db.localFiles := by
  simp only [extract_audio_from_video_attempt]
  repeat' split
  all_goals intro hok
  all_goals
    first
      | (simp [markStepCompleted]
         exact erase_two_scratch db.localFiles webmScratch audioScratch hw hau)
      | (exfalso; simp [failStep, failNoStep] at hok)

/-- A returning transcribe attempt leaves the scratch directory as it found
it. -/
theorem transcribe_ok_scratch (st : Settings)
    (dg : ExtOutcome TranscribeResult) (t0 t1 : Nat) (db : DB)
    (hau : audioScratch ∉ db.localFiles) :
    (transcribe_audio_attempt st dg t0 t1 db).ok = true →
    (transcribe_audio_attempt st dg t0 t1 db).db.localFiles
      = db.localFiles := by
  simp only [transcribe_audio_attempt]
  repeat' split
  all_goals intro hok
  all_goals
    first
      | (simp [markStepCompleted]
         exact erase_one_scratch db.localFiles audioScratch hau)
      | (exfalso; simp [failStep, failNoStep] at hok)

/-- The analyze attempt never touches local scratch files on any path. -/
theorem analyze_scratch_unchanged (st : Settings) (ge : AnalyzeEnv)
    (t0 t1 : Nat) (db : DB) :
    (analyze_transcription_attempt st ge t0 t1 db).db.localFiles
      = db.localFiles := by
  simp only [analyze_transcription_attempt]
  repeat' split
  all_goals simp only [analyzeFail, markStepFailed, markStepCompleted]
  all_goals repeat' split
  all_goals simp [analyzeFail, markStepFailed, markStepCompleted]

/-- C7 (amended): on the success path every stage deletes its local scratch
copies before returning (the analyze stage touches none), but on the failure
paths cleanup does not run: a transcode attempt whose subprocess fails
re-raises with the downloaded input still on disk. -/
theorem C7_scratch_cleanup (fc fe : ExtOutcome Unit) (st : Settings)
    (dg : ExtOutcome TranscribeResult) (ge : AnalyzeEnv) (t0 t1 : Nat)
    (db : DB) (hw : webmScratch ∉ db.localFiles)
    (hm : mp4Scratch ∉ db.localFiles) (hau : audioScratch ∉ db.localFiles)
    (a : Job) (l : List Job) (hjobs : db.jobs = a :: l)
    (hsteps : db.steps = []) (hfile : FileType.original_webm ∈ db.files)
    (msg : String) :
    ((convert_webm_to_mp4_attempt fc t0 t1 db).ok = true →
      (convert_webm_to_mp4_attempt fc t0 t1 db).db.localFiles
        = db.localFiles) ∧
    ((extract_audio_from_video_attempt fe t0 t1 db).ok = true →
      (extract_audio_from_video_attempt fe t0 t1 db).db.localFiles
        = db.localFiles) ∧
    ((transcribe_audio_attempt st dg t0 t1 db).ok = true →
      (transcribe_audio_attempt st dg t0 t1 db).db.localFiles
        = db.localFiles) ∧
    (analyze_transcription_attempt st ge t0 t1 db).db.localFiles
      = db.localFiles ∧
    (convert_webm_to_mp4_attempt (ExtOutcome.err msg) t0 t1 db).ok = false ∧
    (convert_webm_to_mp4_attempt (ExtOutcome.err msg) t0 t1 db).db.localFiles
      = db.localFiles ++ [webmScratch] := by
  refine ⟨convert_ok_scratch fc t0 t1 db hw hm,
    extract_ok_scratch fe t0 t1 db hw hau,
    transcribe_ok_scratch st dg t0 t1 db hau,
    analyze_scratch_unchanged st ge t0 t1 db, ?_, ?_⟩
  · unfold convert_webm_to_mp4_attempt
    rw [hjobs]
    simp [stepExists, hsteps, hfile, failStep]
  · unfold convert_webm_to_mp4_attempt
    rw [hjobs]
    simp [stepExists, hsteps, hfile, failStep, markStepFailed]

/-- C7 counterexample: a concrete transcode attempt whose subprocess fails
re-raises with the downloaded scratch copy still present, although no scratch
file existed before the attempt. -/
theorem C7_scratch_cleanup_counterexample :
    dbWithJob.localFiles = [] ∧
    (convert_webm_to_mp4_attempt (ExtOutcome.err "boom") 10 11
      dbWithJob).ok = false ∧
    (convert_webm_to_mp4_attempt (ExtOutcome.err "boom") 10 11
      dbWithJob).db.localFiles ≠ [] := by decide

/-- C7 witness: the amended theorem applied to the concrete fresh job state. -/
theorem C7_scratch_cleanup_witness :
    webmScratch ∉ dbWithJob.localFiles ∧
    mp4Scratch ∉ dbWithJob.localFiles ∧
    audioScratch ∉ dbWithJob.localFiles ∧
    dbWithJob.jobs = { status := JobStatus.running, progress_percentage := 0,
                       started_at := some 10, completed_at := none } :: [] ∧
    dbWithJob.steps = [] ∧
    FileType.original_webm ∈ dbWithJob.files ∧
    (analyze_transcription_attempt settingsSample geminiSample 10 11
      dbWithJob).db.localFiles = dbWithJob.localFiles ∧
    (convert_webm_to_mp4_attempt (ExtOutcome.err "boom") 10 11
      dbWithJob).db.localFiles = dbWithJob.localFiles ++ [webmScratch] :=
  ⟨by decide, by decide, by decide, by decide, by decide, by decide,
   (C7_scratch_cleanup (ExtOutcome.err "boom") (ExtOutcome.ok ())
     settingsSample (ExtOutcome.ok trSample) geminiSample 10 11 dbWithJob
     (by decide) (by decide) (by decide)
     { status := JobStatus.running, progress_percentage := 0,
       started_at := some 10, completed_at := none } []
     (by decide) (by decide) (by decide) "boom").2.2.2.1,
   (C7_scratch_cleanup (ExtOutcome.err "boom") (ExtOutcome.ok ())
     settingsSample (ExtOutcome.ok trSample) geminiSample 10 11 dbWithJob
     (by decide) (by decide) (by decide)
     { status := JobStatus.running, progress_percentage := 0,
       started_at := some 10, completed_at := none } []
     (by decide) (by decide) (by decide) "boom").2.2.2.2.2⟩

end Elyune
